import Mathlib

/-!
Shallow embedding of the Yeelight BLE lamp driver
(`custom_components/yeelight_bt/yeelightbt.py`).

The Python class `Lamp` is embedded as explicit state passing: every async
method becomes a function `St → Env → Out α` where

* `St` carries the instance fields of `Lamp`
  (`_client`, `_conn`, `_is_on`, `_rgb`, `_brightness`, `_temperature`,
  `_mode`, `_model`, `_pair_resp_event`, `_read_service`, `_notify_started`),
* `Env` is the oracle deciding the outcome of each transport primitive
  (`establish_connection`, `start_notify`, `write_gatt_char`,
  `BleakClient.disconnect`), consumed in call order,
* `Out` returns the new state, remaining oracle, a trace of externally
  visible events (GATT writes with the connection state at the moment of the
  write, session establishment, client disconnects, state-changed callback
  invocations) and either a value or a propagated Python exception.

Asynchronous callbacks (`notification_handler`, `diconnected_cb`) are modeled
as separate transitions of the system: the event loop runs them between (not
inside) the sequential bodies modeled here.  `asyncio` locks serialize the
bodies, so each method runs atomically in this model.  Waits with swallowed
timeouts (`asyncio.wait_for(..., timeout)` followed by `pass`) have no state
effect of their own and are kept as comments at their source position.
-/

/-- Connection state enum `Conn` of the source (values 1..4 are irrelevant). -/
inductive Conn where
  | DISCONNECTED
  | UNPAIRED
  | PAIRING
  | PAIRED
deriving DecidableEq, Repr

/-- A `BleakClient` transport handle: its identity (session counter, so that a
replaced handle is observably different) and its `is_connected` flag. -/
structure Client where
  id : Nat
  connected : Bool
deriving DecidableEq, Repr

/-- The part of a `BLEDevice` the driver reads: address and advertised name. -/
structure BLEDevice where
  address : String
  name : Option String
deriving DecidableEq, Repr

/-- Model name strings from the source. -/
def MODEL_BEDSIDE : String := "Bedside"

def MODEL_CANDELA : String := "Candela"

def MODEL_UNKNOWN : String := "Unknown"

def NAME_PREFIX_BEDSIDE : String := "XMCTD_"

def NAME_PREFIX_CANDELA : String := "yeelight_ms"

def EMPTY_NAME : String := ""

/-- Protocol constants from the source. -/
def COMMAND_STX : Int := 0x43

def CMD_PAIR : Int := 0x67

def CMD_PAIR_ON : Int := 0x02

def RES_PAIR : Int := 0x63

def CMD_POWER : Int := 0x40

def CMD_POWER_ON : Int := 0x01

def CMD_POWER_OFF : Int := 0x02

def CMD_COLOR : Int := 0x41

def CMD_BRIGHTNESS : Int := 0x42

def CMD_TEMP : Int := 0x43

def CMD_RGB : Int := 0x41

def CMD_GETSTATE : Int := 0x44

def CMD_GETSTATE_SEC : Int := 0x02

def RES_GETSTATE : Int := 0x45

def MODE_COLOR : Int := 0x01

def MODE_WHITE : Int := 0x02

def MODE_FLOW : Int := 0x03

/-- Python `str.strip()` modeled on the underlying character sequence (the
built-in `String.trim` does not reduce in the kernel). -/
def pyStrip (s : String) : String :=
  ⟨((s.data.dropWhile Char.isWhitespace).reverse.dropWhile Char.isWhitespace).reverse⟩

/-- Python `str.startswith` modeled on the underlying character sequence. -/
def pyStartsWith (s pre : String) : Bool := List.isPrefixOf pre.data s.data

/-- Source `model_from_name`: derive the model tag from the advertised name. -/
def model_from_name (ble_name : Option String) : String :=
  let name := pyStrip (Option.getD ble_name EMPTY_NAME)
  if pyStartsWith name NAME_PREFIX_BEDSIDE then MODEL_BEDSIDE
  else if pyStartsWith name NAME_PREFIX_CANDELA then MODEL_CANDELA
  else MODEL_UNKNOWN

/-- Instance fields of `Lamp` (see `Lamp.__init__`).  The cached `BLEDevice`,
`_mac`, `_is_client_bluez` and the callback list only feed logging or the
transport layer and carry no protocol state; `epoch` is model bookkeeping
producing fresh client identities. -/
structure St where
  client : Option Client
  conn : Conn
  is_on : Bool
  rgb : Int × Int × Int
  brightness : Int
  temperature : Int
  mode : Option Int
  model : String
  pairEvent : Bool
  readService : Bool
  notifyStarted : Bool
  epoch : Nat
deriving DecidableEq, Repr

/-- Source `Lamp.__init__` for a given `BLEDevice`. -/
def Lamp.init (d : BLEDevice) : St :=
  { client := none
    conn := Conn.DISCONNECTED
    is_on := false
    rgb := (0, 0, 0)
    brightness := 0
    temperature := 0
    mode := if model_from_name d.name = MODEL_CANDELA then some MODE_WHITE else none
    model := model_from_name d.name
    pairEvent := false
    readService := false
    notifyStarted := false
    epoch := 0 }

/-- Transport oracle: outcomes of the transport primitives, consumed in call
order, plus whether debug logging is enabled (it gates `read_services`). -/
structure Env where
  connects : List Bool
  notifies : List Bool
  writes : List Bool
  discos : List Bool
  debugEnabled : Bool
deriving DecidableEq, Repr

/-- Externally visible events of a run. -/
inductive Ev where
  | establish (id : Nat)
  | subscribe
  | write (frame : List Int) (conn : Conn) (ok : Bool)
  | disco
  | stateCb
deriving DecidableEq, Repr

/-- Result of a Python call: a value, or a propagated exception. -/
inductive Res (α : Type) where
  | ok (a : α)
  | exc
deriving DecidableEq, Repr

/-- Output of one method body: final fields, remaining oracle, event trace,
result. -/
structure Out (α : Type) where
  st : St
  env : Env
  tr : List Ev
  res : Res α
deriving DecidableEq, Repr

/-- The embedding monad: explicit state passing over `St` and `Env` with an
event trace and exception propagation. -/
def M (α : Type) : Type := St → Env → Out α

def M.pure (a : α) : M α := fun s e => ⟨s, e, [], Res.ok a⟩

def M.bind (m : M α) (f : α → M β) : M β := fun s e =>
  let o := m s e
  match o.res with
  | Res.exc => ⟨o.st, o.env, o.tr, Res.exc⟩
  | Res.ok a =>
    let o2 := f a o.st o.env
    ⟨o2.st, o2.env, o.tr ++ o2.tr, o2.res⟩

instance : Monad M where
  pure := M.pure
  bind := M.bind

def M.get : M St := fun s e => ⟨s, e, [], Res.ok s⟩

def M.set (s' : St) : M Unit := fun _ e => ⟨s', e, [], Res.ok ()⟩

def M.modify (f : St → St) : M Unit := fun s e => ⟨f s, e, [], Res.ok ()⟩

/-- An uncaught Python `raise`. -/
def M.raise : M α := fun s e => ⟨s, e, [], Res.exc⟩

/-- Python `try: m except Exception: h` — state changes made before the
exception persist, then the handler runs. -/
def M.tryCatch (m : M α) (h : M α) : M α := fun s e =>
  let o := m s e
  match o.res with
  | Res.ok _ => o
  | Res.exc =>
    let o2 := h o.st o.env
    ⟨o2.st, o2.env, o.tr ++ o2.tr, o2.res⟩

/-- `bleak_retry_connector.establish_connection`: on success installs a fresh
connected client handle (replacing `self._client`); on failure raises and
leaves the old handle in place. -/
def establishConn : M Unit := fun s e =>
  let ok := e.connects.headD false
  let e' : Env := { e with connects := e.connects.tail }
  if ok then
    ⟨{ s with client := some ⟨s.epoch, true⟩, epoch := s.epoch + 1 }, e',
      [Ev.establish s.epoch], Res.ok ()⟩
  else
    ⟨s, e', [], Res.exc⟩

/-- `self._client.start_notify(NOTIFY_UUID, self.notification_handler)`. -/
def startNotify : M Unit := fun s e =>
  let ok := e.notifies.headD false
  let e' : Env := { e with notifies := e.notifies.tail }
  if ok then ⟨s, e', [Ev.subscribe], Res.ok ()⟩ else ⟨s, e', [], Res.exc⟩

/-- `self._client.write_gatt_char(CONTROL_UUID, bits, response=False)`.  The
event records the frame, the connection state at the moment of the write and
whether the write succeeded. -/
def writeGatt (frame : List Int) : M Unit := fun s e =>
  let ok := e.writes.headD false
  let e' : Env := { e with writes := e.writes.tail }
  ⟨s, e', [Ev.write frame s.conn ok], if ok then Res.ok () else Res.exc⟩

/-- `self._client.disconnect()` on an existing client: marks the handle
disconnected on success, raises on failure. -/
def clientDisconnect : M Unit := fun s e =>
  let ok := e.discos.headD false
  let e' : Env := { e with discos := e.discos.tail }
  match s.client with
  | none => ⟨s, e', [Ev.disco], Res.exc⟩
  | some c =>
    if ok then
      ⟨{ s with client := some { c with connected := false } }, e', [Ev.disco], Res.ok ()⟩
    else
      ⟨s, e', [Ev.disco], Res.exc⟩

/-- `self.run_state_changed_cb()`: invokes every subscriber; subscriber errors
are caught and logged, so it never raises and never touches lamp state. -/
def runStateChangedCb : M Unit := fun s e => ⟨s, e, [Ev.stateCb], Res.ok ()⟩

def M.isDebug : M Bool := fun s e => ⟨s, e, [], Res.ok e.debugEnabled⟩

/-- Byte range check of a Python `struct.pack` "B" field. -/
def byteOK (v : Int) : Bool := decide (0 ≤ v ∧ v ≤ 255)

/-- Signed 16-bit range check of a `struct.pack` "h" field. -/
def shortOK (v : Int) : Bool := decide (-32768 ≤ v ∧ v ≤ 32767)

/-- Big-endian two-byte encoding of a 16-bit value (two's complement). -/
def beShort (v : Int) : List Int := [(v % 65536) / 256, (v % 65536) % 256]

/-- `struct.pack("BBB15x", a, b, c)`: 18-byte frame, `none` = `struct.error`. -/
def packBBB15x (a b c : Int) : Option (List Int) :=
  if byteOK a && byteOK b && byteOK c then
    some ([a, b, c] ++ List.replicate 15 0)
  else none

/-- `struct.pack(">BBhB13x", a, b, hv, c)`: 18-byte frame with a big-endian
signed short. -/
def packBBhB13x (a b hv c : Int) : Option (List Int) :=
  if byteOK a && byteOK b && shortOK hv && byteOK c then
    some ([a, b] ++ beShort hv ++ [c] ++ List.replicate 13 0)
  else none

/-- `struct.pack("BBBBBBB11x", a, b, c, d, f, g, k)`: 18-byte frame. -/
def pack7B11x (a b c d f g k : Int) : Option (List Int) :=
  if byteOK a && byteOK b && byteOK c && byteOK d && byteOK f && byteOK g && byteOK k then
    some ([a, b, c, d, f, g, k] ++ List.replicate 11 0)
  else none

/-- The pairing frame `struct.pack("BBB15x", COMMAND_STX, CMD_PAIR, CMD_PAIR_ON)`
(all constants are in byte range, so the pack cannot fail). -/
def pairBits : List Int := [COMMAND_STX, CMD_PAIR, CMD_PAIR_ON] ++ List.replicate 15 0

/-- Body of `connect` past the early return: refresh of the cached
`BLEDevice` via the injected callback (no protocol state), then
`establish_connection`, the bluez sniff (log-only), `self._conn = UNPAIRED`,
and the debug-only `read_services` pass which only flips `_read_service`. -/
def connectEstablish : M Unit := do
  establishConn
  M.modify (fun s => { s with conn := Conn.UNPAIRED })
  let s ← M.get
  let dbg ← M.isDebug
  if ¬ s.readService ∧ dbg then M.set { s with readService := true } else M.pure ()

/-- Source `Lamp.connect` (the `_conn_lock` serializes it; bodies are atomic
in this model).  If a live connected client exists it returns at once, only
normalizing `DISCONNECTED`/`UNPAIRED` to `UNPAIRED`. -/
def Lamp.connect : M Unit := do
  let s ← M.get
  match s.client with
  | some c =>
    if c.connected then
      if s.conn = Conn.DISCONNECTED ∨ s.conn = Conn.UNPAIRED then
        M.set { s with conn := Conn.UNPAIRED }
      else M.pure ()
    else connectEstablish
  | none => connectEstablish

/-- Source `Lamp.pair`.  The pair frame is written only from
`UNPAIRED`/`PAIRING`; the event is cleared first; write errors are swallowed.
The Bedside wait on `_pair_resp_event` swallows its timeout and has no state
effect of its own. -/
def Lamp.pair : M Unit := do
  let s ← M.get
  match s.client with
  | none => M.raise
  | some _ =>
    if s.conn = Conn.UNPAIRED ∨ s.conn = Conn.PAIRING then
      M.tryCatch
        (do
          M.modify (fun s2 => { s2 with pairEvent := false })
          writeGatt pairBits)
        (M.pure ())
    else M.pure ()

/-- Source `Lamp.ensure_paired`: connect, subscribe notifications once per
session (failure tolerated), return early when already `PAIRED`, otherwise
pair, wait (Candela, timeout swallowed) and force-assume `PAIRED`, then fire
the state callbacks. -/
def Lamp.ensure_paired : M Unit := do
  Lamp.connect
  let s ← M.get
  match s.client with
  | none => M.raise
  | some _ => do
    if s.notifyStarted then M.pure ()
    else
      M.tryCatch
        (do
          startNotify
          M.modify (fun s2 => { s2 with notifyStarted := true }))
        (M.pure ())
    let s1 ← M.get
    if s1.conn = Conn.PAIRED then M.pure ()
    else do
      Lamp.pair
      -- Candela: wait up to 10s on `_pair_resp_event`, TimeoutError swallowed
      let s2 ← M.get
      if s2.conn ≠ Conn.PAIRED then M.set { s2 with conn := Conn.PAIRED }
      else M.pure ()
      runStateChangedCb

/-- Source `Lamp.disconnect`: no-op without a client; otherwise the client
teardown error is swallowed and the `finally` block resets `_conn`,
`_notify_started` and fires the callbacks. -/
def Lamp.disconnect : M Unit := do
  let s ← M.get
  match s.client with
  | none => M.pure ()
  | some _ => do
    M.tryCatch clientDisconnect (M.pure ())
    M.modify (fun s2 => { s2 with conn := Conn.DISCONNECTED, notifyStarted := false })
    runStateChangedCb

/-- Source `Lamp.send_cmd` (under `_op_lock`): ensure paired, write the frame,
on a first failure disconnect → connect → write once more; any escaped
exception yields `False`.  `asyncio.sleep(wait_notif)` has no state effect and
the parameter is kept only for signature fidelity. -/
def Lamp.send_cmd (bits : List Int) (wait_notif : Nat) : M Bool :=
  M.tryCatch
    (do
      Lamp.ensure_paired
      let s ← M.get
      match s.client with
      | none => M.pure false
      | some _ => do
        M.tryCatch (writeGatt bits)
          (do
            Lamp.disconnect
            Lamp.connect
            writeGatt bits)
        M.pure true)
    (M.pure false)

/-- Source `Lamp.get_state`. -/
def Lamp.get_state : M Unit := do
  match packBBB15x COMMAND_STX CMD_GETSTATE CMD_GETSTATE_SEC with
  | none => M.raise
  | some bits => do
    let _ ← Lamp.send_cmd bits 200
    M.pure ()

/-- Source `Lamp.turn_on`: on send success, optimistic `_is_on := True` plus
callbacks. -/
def Lamp.turn_on : M Unit := do
  match packBBB15x COMMAND_STX CMD_POWER CMD_POWER_ON with
  | none => M.raise
  | some bits => do
    let ok ← Lamp.send_cmd bits 200
    if ok then do
      M.modify (fun s => { s with is_on := true })
      runStateChangedCb
    else M.pure ()

/-- Source `Lamp.turn_off`. -/
def Lamp.turn_off : M Unit := do
  match packBBB15x COMMAND_STX CMD_POWER CMD_POWER_OFF with
  | none => M.raise
  | some bits => do
    let ok ← Lamp.send_cmd bits 200
    if ok then do
      M.modify (fun s => { s with is_on := false })
      runStateChangedCb
    else M.pure ()

/-- Source `Lamp.set_brightness`: the argument is clamped to [0,100] before
packing. -/
def Lamp.set_brightness (brightness : Int) : M Unit := do
  let b := min 100 (max 0 brightness)
  match packBBB15x COMMAND_STX CMD_BRIGHTNESS b with
  | none => M.raise
  | some bits => do
    let ok ← Lamp.send_cmd bits 0
    if ok then do
      M.modify (fun s => { s with brightness := b })
      runStateChangedCb
    else M.pure ()

/-- Source `Lamp.set_temperature`: kelvin is clamped to [1700,6500]; the
brightness argument (defaulting to the stored brightness) is packed as-is. -/
def Lamp.set_temperature (kelvin : Int) (brightness : Option Int) : M Unit := do
  let s ← M.get
  let b := brightness.getD s.brightness
  let k := min 6500 (max 1700 kelvin)
  match packBBhB13x COMMAND_STX CMD_TEMP k b with
  | none => M.raise
  | some bits => do
    let ok ← Lamp.send_cmd bits 0
    if ok then do
      M.modify (fun s2 =>
        { s2 with temperature := k, brightness := b, mode := some MODE_WHITE })
      runStateChangedCb
    else M.pure ()

/-- Source `Lamp.set_color`: red/green/blue and the brightness argument
(defaulting to the stored brightness) are packed as-is, unclamped. -/
def Lamp.set_color (red green blue : Int) (brightness : Option Int) : M Unit := do
  let s ← M.get
  let b := brightness.getD s.brightness
  match pack7B11x COMMAND_STX CMD_RGB red green blue 0x01 b with
  | none => M.raise
  | some bits => do
    let ok ← Lamp.send_cmd bits 0
    if ok then do
      M.modify (fun s2 =>
        { s2 with rgb := (red, green, blue), brightness := b, mode := some MODE_COLOR })
      runStateChangedCb
    else M.pure ()

/-- Signed big-endian 16-bit decode of a `struct.unpack` ">h" field. -/
def signed16 (hi lo : Int) : Int :=
  let u := hi * 256 + lo
  if u ≥ 32768 then u - 65536 else u

/-- Source `Lamp.notification_handler` (a synchronous callback): returns the
new fields and whether `run_state_changed_cb` was invoked.  Every
`struct.unpack` either needs exactly 18 bytes or raises, and every raise is
caught and turns the call into a no-op, so the handler is total. -/
def Lamp.notification_handler (s : St) (cHandle : Nat) (data : List Int) : St × Bool :=
  if data.length = 18 then
    let res_type := data.getD 1 0
    if res_type = RES_GETSTATE then
      -- struct.unpack(">xxBBBBBBBhx6x", data); state[i] below = st_i
      let st_0 := data.getD 2 0
      let st_1 := data.getD 3 0
      let st_2 := data.getD 4 0
      let st_3 := data.getD 5 0
      let st_4 := data.getD 6 0
      let st_6 := data.getD 8 0
      let st_7 := signed16 (data.getD 9 0) (data.getD 10 0)
      if s.model = MODEL_CANDELA then
        ({ s with
            is_on := decide (st_0 = CMD_POWER_ON)
            brightness := st_1
            mode := if s.conn = Conn.PAIRED then some st_2 else none }, true)
      else
        ({ s with
            is_on := decide (st_0 = CMD_POWER_ON)
            mode := if s.conn = Conn.PAIRED then some st_1 else none
            rgb := (st_2, st_3, st_4)
            brightness := st_6
            temperature := st_7 }, true)
    else if res_type = RES_PAIR then
      let pair_mode := data.getD 2 0
      if pair_mode = 0x01 then
        ({ s with mode := none, conn := Conn.PAIRING, pairEvent := true }, false)
      else if pair_mode = 0x02 ∨ pair_mode = 0x04 then
        ({ s with conn := Conn.PAIRED, pairEvent := true }, false)
      else if pair_mode = 0x03 then
        ({ s with mode := none, conn := Conn.UNPAIRED, pairEvent := true }, false)
      else
        ({ s with mode := none, conn := Conn.UNPAIRED, pairEvent := true }, false)
    else (s, false)
  else (s, false)

/-- Source `Lamp.diconnected_cb` (sic), installed as the transport's
disconnected callback; it also fires the state callbacks. -/
def Lamp.diconnected_cb (s : St) : St :=
  { s with mode := none, conn := Conn.DISCONNECTED, notifyStarted := false }

/-- One advertised min/max range of `get_prop_min_max`. -/
structure PropRange where
  low : Int
  high : Int
deriving DecidableEq, Repr

/-- The dict returned by `Lamp.get_prop_min_max`. -/
structure PropMinMax where
  brightness : PropRange
  temperature : PropRange
  color : PropRange
deriving DecidableEq, Repr

/-- Source `Lamp.get_prop_min_max`. -/
def Lamp.get_prop_min_max : PropMinMax :=
  ⟨⟨0, 100⟩, ⟨1700, 6500⟩, ⟨0, 255⟩⟩

/-! ### Helper definitions for the claims -/

/-- The Device State Model fields (on/off, RGB, brightness, temperature,
mode). -/
def devFields (s : St) : Bool × (Int × Int × Int) × Int × Int × Option Int :=
  (s.is_on, s.rgb, s.brightness, s.temperature, s.mode)

/-- Does this event write the given command frame? -/
def isCmdWrite (bits : List Int) : Ev → Bool
  | Ev.write f _ _ => decide (f = bits)
  | _ => false

/-- The writes of a given command frame in a trace. -/
def cmdWrites (bits : List Int) (tr : List Ev) : List Ev := tr.filter (isCmdWrite bits)

theorem cmdWrites_append (bits : List Int) (a b : List Ev) :
    cmdWrites bits (a ++ b) = cmdWrites bits a ++ cmdWrites bits b := by
  simp [cmdWrites]

theorem pairBits_getD_one : pairBits.getD 1 0 = CMD_PAIR := by
  simp [pairBits]

theorem isCmdWrite_pairBits (bits : List Int) (c : Conn) (ok : Bool)
    (hb : bits.getD 1 0 ≠ CMD_PAIR) : isCmdWrite bits (Ev.write pairBits c ok) = false := by
  simp only [isCmdWrite, decide_eq_false_iff_not]
  intro h
  exact hb (h ▸ pairBits_getD_one)

/-! ### Lemmas about `Lamp.disconnect` -/

theorem disconnect_res (s : St) (e : Env) : (Lamp.disconnect s e).res = Res.ok () := by
  unfold Lamp.disconnect
  cases hc : s.client <;>
    simp [Bind.bind, M.bind, M.get, M.tryCatch, clientDisconnect, M.pure, M.modify,
      runStateChangedCb, hc] <;>
    split_ifs <;> simp

theorem disconnect_none (s : St) (e : Env) (h : s.client = none) :
    Lamp.disconnect s e = ⟨s, e, [], Res.ok ()⟩ := by
  unfold Lamp.disconnect
  simp [Bind.bind, M.bind, M.get, M.tryCatch, clientDisconnect, M.pure, M.modify,
    runStateChangedCb, h]

theorem disconnect_some (s : St) (e : Env) (c : Client) (h : s.client = some c) :
    (Lamp.disconnect s e).st.conn = Conn.DISCONNECTED ∧
    (Lamp.disconnect s e).st.notifyStarted = false ∧
    (Lamp.disconnect s e).st.client.isSome = true := by
  unfold Lamp.disconnect
  simp [Bind.bind, M.bind, M.get, M.tryCatch, clientDisconnect, M.pure, M.modify,
    runStateChangedCb, h] <;>
  split_ifs <;> simp [h]

theorem disconnect_fields (s : St) (e : Env) :
    devFields (Lamp.disconnect s e).st = devFields s := by
  unfold Lamp.disconnect
  cases hc : s.client <;>
    simp [Bind.bind, M.bind, M.get, M.tryCatch, clientDisconnect, M.pure, M.modify,
      runStateChangedCb, hc, devFields] <;>
    split_ifs <;> simp [devFields]

theorem disconnect_nowrite (bits : List Int) (s : St) (e : Env) :
    cmdWrites bits (Lamp.disconnect s e).tr = [] := by
  unfold Lamp.disconnect
  cases hc : s.client <;>
    simp [Bind.bind, M.bind, M.get, M.tryCatch, clientDisconnect, M.pure, M.modify,
      runStateChangedCb, hc, cmdWrites, isCmdWrite] <;>
    split_ifs <;> simp [cmdWrites, isCmdWrite]

/-! ### Lemmas about `connectEstablish` and `Lamp.connect` -/

theorem connEst_exc_st (s : St) (e : Env) (h : (connectEstablish s e).res = Res.exc) :
    (connectEstablish s e).st = s := by
  unfold connectEstablish at *
  cases hd : e.connects.headD false <;>
    simp [Bind.bind, M.bind, M.get, M.isDebug, M.set, M.pure, M.modify, establishConn, hd] at h ⊢ <;>
    split_ifs at h ⊢ <;> simp_all [M.set, M.pure]

theorem connEst_ok_client (s : St) (e : Env) (h : (connectEstablish s e).res = Res.ok ()) :
    (connectEstablish s e).st.client = some ⟨s.epoch, true⟩ ∧
    (connectEstablish s e).st.conn = Conn.UNPAIRED := by
  unfold connectEstablish at *
  cases hd : e.connects.headD false <;>
    simp [Bind.bind, M.bind, M.get, M.isDebug, M.set, M.pure, M.modify, establishConn, hd] at h ⊢ <;>
    split_ifs <;> simp_all [M.set, M.pure]

theorem connEst_fields (s : St) (e : Env) :
    devFields (connectEstablish s e).st = devFields s := by
  unfold connectEstablish
  cases hd : e.connects.headD false <;>
    simp_all [Bind.bind, M.bind, M.get, M.isDebug, M.set, M.pure, M.modify, establishConn,
      devFields] <;>
    split_ifs <;> simp_all [M.set, M.pure, devFields]

theorem connEst_nowrite (bits : List Int) (s : St) (e : Env) :
    cmdWrites bits (connectEstablish s e).tr = [] := by
  unfold connectEstablish
  cases hd : e.connects.headD false <;>
    simp_all [Bind.bind, M.bind, M.get, M.isDebug, M.set, M.pure, M.modify, establishConn,
      cmdWrites, isCmdWrite] <;>
    split_ifs <;> simp_all [M.set, M.pure, cmdWrites, isCmdWrite]

theorem cmdWrites_nil (bits : List Int) : cmdWrites bits [] = [] := rfl

theorem cmdWrites_establish (bits : List Int) (n : Nat) (tr : List Ev) :
    cmdWrites bits (Ev.establish n :: tr) = cmdWrites bits tr := by
  simp [cmdWrites, isCmdWrite]

theorem cmdWrites_subscribe (bits : List Int) (tr : List Ev) :
    cmdWrites bits (Ev.subscribe :: tr) = cmdWrites bits tr := by
  simp [cmdWrites, isCmdWrite]

theorem cmdWrites_disco (bits : List Int) (tr : List Ev) :
    cmdWrites bits (Ev.disco :: tr) = cmdWrites bits tr := by
  simp [cmdWrites, isCmdWrite]

theorem cmdWrites_stateCb (bits : List Int) (tr : List Ev) :
    cmdWrites bits (Ev.stateCb :: tr) = cmdWrites bits tr := by
  simp [cmdWrites, isCmdWrite]

theorem cmdWrites_write_self (bits : List Int) (c : Conn) (ok : Bool) (tr : List Ev) :
    cmdWrites bits (Ev.write bits c ok :: tr) = Ev.write bits c ok :: cmdWrites bits tr := by
  simp [cmdWrites, isCmdWrite]

theorem connect_nowrite (bits : List Int) (s : St) (e : Env) :
    cmdWrites bits (Lamp.connect s e).tr = [] := by
  unfold Lamp.connect
  cases hc : s.client <;>
    simp_all [Bind.bind, M.bind, M.get, M.set, M.pure, cmdWrites_append, connEst_nowrite,
      cmdWrites_nil] <;>
    split_ifs <;>
    simp_all [M.set, M.pure, cmdWrites_append, connEst_nowrite, cmdWrites_nil]

theorem connect_ok_client (s : St) (e : Env) (h : (Lamp.connect s e).res = Res.ok ()) :
    ∃ c, (Lamp.connect s e).st.client = some c ∧ c.connected = true := by
  unfold Lamp.connect at *
  cases hc : s.client with
  | none =>
    simp_all [Bind.bind, M.bind, M.get]
    rcases (connEst_ok_client s e (by simp_all)).1 with h1
    exact ⟨⟨s.epoch, true⟩, by simp_all, rfl⟩
  | some c =>
    by_cases hcc : c.connected = true
    · simp_all [Bind.bind, M.bind, M.get]
      split_ifs at h ⊢ <;> simp_all [M.set, M.pure] <;> exact ⟨c, by simp_all, hcc⟩
    · simp_all [Bind.bind, M.bind, M.get]
      rcases (connEst_ok_client s e (by simp_all)).1 with h1
      exact ⟨⟨s.epoch, true⟩, by simp_all, rfl⟩

theorem connect_from_disconnected (s : St) (e : Env) (hd : s.conn = Conn.DISCONNECTED)
    (h : (Lamp.connect s e).res = Res.ok ()) : (Lamp.connect s e).st.conn = Conn.UNPAIRED := by
  unfold Lamp.connect at *
  cases hc : s.client with
  | none =>
    simp_all [Bind.bind, M.bind, M.get]
    exact (connEst_ok_client s e (by simp_all)).2
  | some c =>
    by_cases hcc : c.connected = true
    · simp_all [Bind.bind, M.bind, M.get, M.set, M.pure]
    · simp_all [Bind.bind, M.bind, M.get]
      exact (connEst_ok_client s e (by simp_all)).2

theorem connect_fields (s : St) (e : Env) :
    devFields (Lamp.connect s e).st = devFields s := by
  unfold Lamp.connect
  cases hc : s.client with
  | none =>
    simp_all [Bind.bind, M.bind, M.get]
    exact connEst_fields s e
  | some c =>
    by_cases hcc : c.connected = true
    · simp_all [Bind.bind, M.bind, M.get]
      split_ifs <;> simp_all [M.set, M.pure, devFields]
    · simp_all [Bind.bind, M.bind, M.get]
      exact connEst_fields s e

theorem connect_ok_conn (s : St) (e : Env) (h : (Lamp.connect s e).res = Res.ok ()) :
    (Lamp.connect s e).st.conn = Conn.UNPAIRED ∨ (Lamp.connect s e).st.conn = Conn.PAIRING ∨
    (Lamp.connect s e).st.conn = Conn.PAIRED := by
  unfold Lamp.connect at *
  cases hc : s.client with
  | none =>
    simp_all [Bind.bind, M.bind, M.get]
    exact Or.inl (connEst_ok_client s e (by simp_all)).2
  | some c =>
    by_cases hcc : c.connected = true
    · simp_all [Bind.bind, M.bind, M.get]
      split_ifs with hor <;> simp_all [M.set, M.pure]
      cases hcon : s.conn <;> simp_all
    · simp_all [Bind.bind, M.bind, M.get]
      exact Or.inl (connEst_ok_client s e (by simp_all)).2

theorem connect_isSome (s : St) (e : Env) (h : s.client.isSome = true) :
    (Lamp.connect s e).st.client.isSome = true := by
  unfold Lamp.connect
  cases hc : s.client with
  | none => simp_all
  | some c =>
    by_cases hcc : c.connected = true
    · simp_all [Bind.bind, M.bind, M.get]
      split_ifs <;> simp_all [M.set, M.pure, hc]
    · simp_all [Bind.bind, M.bind, M.get]
      rcases hres : (connectEstablish s e).res with a | _
      · rcases a
        have := (connEst_ok_client s e hres).1
        simp_all
      · have := connEst_exc_st s e hres
        simp_all

theorem connect_none_cases (s : St) (e : Env) (h : s.client = none) :
    (Lamp.connect s e).st = s ∨ (Lamp.connect s e).st.client.isSome = true := by
  unfold Lamp.connect
  simp_all [Bind.bind, M.bind, M.get]
  rcases hres : (connectEstablish s e).res with a | _
  · rcases a
    have := (connEst_ok_client s e hres).1
    exact Or.inr (by simp_all)
  · exact Or.inl (connEst_exc_st s e hres)

theorem cmdWrites_write_other (bits f : List Int) (c : Conn) (ok : Bool) (tr : List Ev)
    (h : ¬ f = bits) : cmdWrites bits (Ev.write f c ok :: tr) = cmdWrites bits tr := by
  simp [cmdWrites, isCmdWrite, h]

theorem pairBits_ne (bits : List Int) (hb : bits.getD 1 0 ≠ CMD_PAIR) : ¬ pairBits = bits := by
  intro h
  exact hb (h ▸ pairBits_getD_one)

theorem pair_none (s : St) (e : Env) (h : s.client = none) :
    Lamp.pair s e = ⟨s, e, [], Res.exc⟩ := by
  unfold Lamp.pair
  simp [Bind.bind, M.bind, M.get, M.raise, h]

theorem pair_ok (s : St) (e : Env) (h : s.client.isSome = true) :
    (Lamp.pair s e).res = Res.ok () := by
  unfold Lamp.pair
  rcases hc : s.client with _ | c
  · simp_all
  · simp only [Bind.bind, M.bind, M.get, hc]
    split_ifs with hcond
    · simp only [M.tryCatch, M.bind, M.modify, writeGatt, M.pure]
      by_cases hw : e.writes.head?.getD false = true <;> simp [hw]
    · simp [M.pure]

theorem pair_keep (s : St) (e : Env) :
    (Lamp.pair s e).st.client = s.client ∧ (Lamp.pair s e).st.conn = s.conn ∧
    (Lamp.pair s e).st.notifyStarted = s.notifyStarted ∧
    devFields (Lamp.pair s e).st = devFields s := by
  unfold Lamp.pair
  rcases hc : s.client with _ | c
  · simp [Bind.bind, M.bind, M.get, M.raise, hc]
  · simp only [Bind.bind, M.bind, M.get, hc]
    split_ifs with hcond
    · simp only [M.tryCatch, M.bind, M.modify, writeGatt, M.pure]
      by_cases hw : e.writes.head?.getD false = true <;> simp [hw, devFields, hc]
    · simp [M.pure, hc]

theorem pair_nowrite (bits : List Int) (s : St) (e : Env) (hb : bits.getD 1 0 ≠ CMD_PAIR) :
    cmdWrites bits (Lamp.pair s e).tr = [] := by
  have hne := pairBits_ne bits hb
  unfold Lamp.pair
  rcases hc : s.client with _ | c
  · simp [Bind.bind, M.bind, M.get, M.raise, hc, cmdWrites, isCmdWrite]
  · simp only [Bind.bind, M.bind, M.get, hc]
    split_ifs with hcond
    · simp only [M.tryCatch, M.bind, M.modify, writeGatt, M.pure]
      by_cases hw : e.writes.head?.getD false = true <;> simp [hw, cmdWrites, isCmdWrite, hne]
    · simp [M.pure, cmdWrites, isCmdWrite]

theorem connect_st_cases (s : St) (e : Env) :
    (Lamp.connect s e).st = s ∨ (Lamp.connect s e).st.client.isSome = true := by
  unfold Lamp.connect
  rcases hc : s.client with _ | c
  · simp only [Bind.bind, M.bind, M.get, hc]
    rcases hres : (connectEstablish s e).res with a | _
    · rcases a
      exact Or.inr (by simp [hres, (connEst_ok_client s e hres).1])
    · exact Or.inl (by simp [hres, connEst_exc_st s e hres])
  · simp only [Bind.bind, M.bind, M.get, hc]
    by_cases hcc : c.connected = true
    · refine Or.inr ?_
      simp only [hcc]
      split_ifs <;> simp [M.set, M.pure, hc]
    · rcases hres : (connectEstablish s e).res with a | _
      · rcases a
        refine Or.inr ?_
        simp [hcc, hres, (connEst_ok_client s e hres).1]
      · refine Or.inl ?_
        simp [hcc, hres, connEst_exc_st s e hres]

theorem connect_is_on (s : St) (e : Env) : (Lamp.connect s e).st.is_on = s.is_on :=
  congrArg Prod.fst (connect_fields s e)

theorem connect_rgb (s : St) (e : Env) : (Lamp.connect s e).st.rgb = s.rgb :=
  congrArg (fun p => p.2.1) (connect_fields s e)

theorem connect_brightness (s : St) (e : Env) :
    (Lamp.connect s e).st.brightness = s.brightness :=
  congrArg (fun p => p.2.2.1) (connect_fields s e)

theorem connect_temperature (s : St) (e : Env) :
    (Lamp.connect s e).st.temperature = s.temperature :=
  congrArg (fun p => p.2.2.2.1) (connect_fields s e)

theorem connect_mode (s : St) (e : Env) : (Lamp.connect s e).st.mode = s.mode :=
  congrArg (fun p => p.2.2.2.2) (connect_fields s e)

theorem pair_client (s : St) (e : Env) : (Lamp.pair s e).st.client = s.client :=
  (pair_keep s e).1

theorem pair_conn (s : St) (e : Env) : (Lamp.pair s e).st.conn = s.conn :=
  (pair_keep s e).2.1

theorem pair_notifyStarted (s : St) (e : Env) :
    (Lamp.pair s e).st.notifyStarted = s.notifyStarted :=
  (pair_keep s e).2.2.1

theorem pair_is_on (s : St) (e : Env) : (Lamp.pair s e).st.is_on = s.is_on :=
  congrArg Prod.fst (pair_keep s e).2.2.2

theorem pair_rgb (s : St) (e : Env) : (Lamp.pair s e).st.rgb = s.rgb :=
  congrArg (fun p => p.2.1) (pair_keep s e).2.2.2

theorem pair_brightness (s : St) (e : Env) : (Lamp.pair s e).st.brightness = s.brightness :=
  congrArg (fun p => p.2.2.1) (pair_keep s e).2.2.2

theorem pair_temperature (s : St) (e : Env) :
    (Lamp.pair s e).st.temperature = s.temperature :=
  congrArg (fun p => p.2.2.2.1) (pair_keep s e).2.2.2

theorem pair_mode (s : St) (e : Env) : (Lamp.pair s e).st.mode = s.mode :=
  congrArg (fun p => p.2.2.2.2) (pair_keep s e).2.2.2

/-- Variant of `pair_nowrite` with the frame hypothesis first, convenient as a
rewrite family. -/
theorem pair_nowrite2 (bits : List Int) (hb : bits.getD 1 0 ≠ CMD_PAIR) (s : St) (e : Env) :
    cmdWrites bits (Lamp.pair s e).tr = [] :=
  pair_nowrite bits s e hb

/-- Characterization of `ensure_paired`: on success the connection is
`PAIRED` (the force-assume fallback) with a client present; the Device State
fields are untouched; no command frame other than the pairing frame is
written; and the state is either unchanged or has a client. -/
theorem ep_char (s : St) (e : Env) :
    ((Lamp.ensure_paired s e).res = Res.ok () →
       (Lamp.ensure_paired s e).st.conn = Conn.PAIRED ∧
       (Lamp.ensure_paired s e).st.client.isSome = true) ∧
    devFields (Lamp.ensure_paired s e).st = devFields s ∧
    (∀ bits, bits.getD 1 0 ≠ CMD_PAIR → cmdWrites bits (Lamp.ensure_paired s e).tr = []) ∧
    ((Lamp.ensure_paired s e).st = s ∨ (Lamp.ensure_paired s e).st.client.isSome = true) := by
  have hcs := connect_st_cases s e
  unfold Lamp.ensure_paired
  simp only [Bind.bind, M.bind, M.get]
  rcases hres : (Lamp.connect s e).res with a | _
  · rcases a
    simp only [hres]
    rcases hcl : (Lamp.connect s e).st.client with _ | c
    · simp only [hcl, M.raise]
      refine ⟨by simp, by simp [connect_fields], fun bits hb => by simp [connect_nowrite], ?_⟩
      rcases hcs with h1 | h1
      · exact Or.inl (by simp [h1])
      · simp [hcl] at h1
    · simp only [hcl]
      by_cases hn : (Lamp.connect s e).st.notifyStarted = true
      · simp only [hn, if_true, M.pure, M.bind, M.get]
        by_cases hp : (Lamp.connect s e).st.conn = Conn.PAIRED
        · simp only [hp, if_true, M.pure]
          refine ⟨fun _ => ⟨by simp [hp], by simp [hcl]⟩, by simp [connect_fields],
            fun bits hb => by simp [connect_nowrite, cmdWrites_append, cmdWrites_nil], ?_⟩
          exact Or.inr (by simp [hcl])
        · simp only [hp, if_false, M.bind, M.get]
          rcases hpres : (Lamp.pair (Lamp.connect s e).st (Lamp.connect s e).env).res with b | _
          · rcases b
            simp only [hpres]
            have hp2 := pair_conn (Lamp.connect s e).st (Lamp.connect s e).env
            simp only [ite_not, hp2, hp, if_false, M.bind, M.set, runStateChangedCb]
            refine ⟨fun _ => ⟨by simp, by simp [pair_client, hcl]⟩, ?_, fun bits hb => ?_, ?_⟩
            · simp [devFields, pair_is_on, pair_rgb, pair_brightness, pair_temperature,
                pair_mode, connect_is_on, connect_rgb, connect_brightness,
                connect_temperature, connect_mode]
            · simp [cmdWrites_append, connect_nowrite, pair_nowrite2 bits hb, cmdWrites_nil,
                cmdWrites_stateCb]
            · exact Or.inr (by simp [pair_client, hcl])
          · have := pair_ok (Lamp.connect s e).st (Lamp.connect s e).env (by simp [hcl])
            rw [hpres] at this
            exact absurd this (by simp)
      · simp only [hn, if_false, Bool.false_eq_true, M.tryCatch, M.bind, startNotify,
          M.modify, M.pure, M.get]
        by_cases hnt : (Lamp.connect s e).env.notifies.headD false = true
        · simp only [hnt, if_true]
          by_cases hp : (Lamp.connect s e).st.conn = Conn.PAIRED
          · simp only [hp, if_true, M.pure]
            refine ⟨fun _ => ⟨by simp [hp], by simp [hcl]⟩, by simp [devFields, connect_is_on,
              connect_rgb, connect_brightness, connect_temperature, connect_mode],
              fun bits hb => by simp [connect_nowrite, cmdWrites_append, cmdWrites_nil,
                cmdWrites_subscribe], ?_⟩
            exact Or.inr (by simp [hcl])
          · simp only [hp, if_false, M.bind, M.get]
            rcases hpres : (Lamp.pair { (Lamp.connect s e).st with notifyStarted := true }
                { (Lamp.connect s e).env with
                    notifies := (Lamp.connect s e).env.notifies.tail }).res with b | _
            · rcases b
              simp only [hpres]
              have hp2 := pair_conn { (Lamp.connect s e).st with notifyStarted := true }
                { (Lamp.connect s e).env with
                    notifies := (Lamp.connect s e).env.notifies.tail }
              simp only [ite_not, hp2, hp, if_false, M.bind, M.set, runStateChangedCb]
              refine ⟨fun _ => ⟨by simp, by simp [pair_client, hcl]⟩, ?_, fun bits hb => ?_, ?_⟩
              · simp [devFields, pair_is_on, pair_rgb, pair_brightness, pair_temperature,
                  pair_mode, connect_is_on, connect_rgb, connect_brightness,
                  connect_temperature, connect_mode]
              · simp [cmdWrites_append, connect_nowrite, pair_nowrite2 bits hb, cmdWrites_nil,
                  cmdWrites_stateCb, cmdWrites_subscribe]
              · exact Or.inr (by simp [pair_client, hcl])
            · have := pair_ok { (Lamp.connect s e).st with notifyStarted := true }
                { (Lamp.connect s e).env with
                    notifies := (Lamp.connect s e).env.notifies.tail } (by simp [hcl])
              rw [hpres] at this
              exact absurd this (by simp)
        · simp only [hnt, if_false, Bool.false_eq_true]
          by_cases hp : (Lamp.connect s e).st.conn = Conn.PAIRED
          · simp only [hp, if_true, M.pure]
            refine ⟨fun _ => ⟨by simp [hp], by simp [hcl]⟩, by simp [connect_fields],
              fun bits hb => by simp [connect_nowrite, cmdWrites_append, cmdWrites_nil], ?_⟩
            exact Or.inr (by simp [hcl])
          · simp only [hp, if_false, M.bind, M.get]
            rcases hpres : (Lamp.pair (Lamp.connect s e).st
                { (Lamp.connect s e).env with
                    notifies := (Lamp.connect s e).env.notifies.tail }).res with b | _
            · rcases b
              simp only [hpres]
              have hp2 := pair_conn (Lamp.connect s e).st
                { (Lamp.connect s e).env with
                    notifies := (Lamp.connect s e).env.notifies.tail }
              simp only [ite_not, hp2, hp, if_false, M.bind, M.set, runStateChangedCb]
              refine ⟨fun _ => ⟨by simp, by simp [pair_client, hcl]⟩, ?_, fun bits hb => ?_, ?_⟩
              · simp [devFields, pair_is_on, pair_rgb, pair_brightness, pair_temperature,
                  pair_mode, connect_is_on, connect_rgb, connect_brightness,
                  connect_temperature, connect_mode]
              · simp [cmdWrites_append, connect_nowrite, pair_nowrite2 bits hb, cmdWrites_nil,
                  cmdWrites_stateCb]
              · exact Or.inr (by simp [pair_client, hcl])
            · have := pair_ok (Lamp.connect s e).st
                { (Lamp.connect s e).env with
                    notifies := (Lamp.connect s e).env.notifies.tail } (by simp [hcl])
              rw [hpres] at this
              exact absurd this (by simp)
  · simp only [hres]
    refine ⟨by simp, by simp [connect_fields], fun bits hb => by simp [connect_nowrite], hcs⟩

theorem disconnect_is_on (s : St) (e : Env) : (Lamp.disconnect s e).st.is_on = s.is_on :=
  congrArg Prod.fst (disconnect_fields s e)

theorem disconnect_rgb (s : St) (e : Env) : (Lamp.disconnect s e).st.rgb = s.rgb :=
  congrArg (fun p => p.2.1) (disconnect_fields s e)

theorem disconnect_brightness (s : St) (e : Env) :
    (Lamp.disconnect s e).st.brightness = s.brightness :=
  congrArg (fun p => p.2.2.1) (disconnect_fields s e)

theorem disconnect_temperature (s : St) (e : Env) :
    (Lamp.disconnect s e).st.temperature = s.temperature :=
  congrArg (fun p => p.2.2.2.1) (disconnect_fields s e)

theorem disconnect_mode (s : St) (e : Env) : (Lamp.disconnect s e).st.mode = s.mode :=
  congrArg (fun p => p.2.2.2.2) (disconnect_fields s e)

/-- The command writes of a `send_cmd` trace, with the `Conn` state recorded
at the moment of each write: there is at most a first attempt (made while
`PAIRED`) and one retry (made while `UNPAIRED`). -/
def cmdTraceOK (bits : List Int) (tr : List Ev) : Prop :=
  match cmdWrites bits tr with
  | [] => True
  | [Ev.write _ c _] => c = Conn.PAIRED
  | [Ev.write _ c1 _, Ev.write _ c2 _] => c1 = Conn.PAIRED ∧ c2 = Conn.UNPAIRED
  | _ => False

/-- Relation between the command-write attempts of a `send_cmd` trace and its
result: no attempt means failure before the write; a sole attempt determines
the result (a failed sole attempt means the reconnect failed); a retry exists
only after a failed first attempt and determines the result. -/
def sendShape (bits : List Int) (o : Out Bool) : Prop :=
  match cmdWrites bits o.tr with
  | [] => o.res = Res.ok false
  | [Ev.write _ _ ok] => o.res = Res.ok ok
  | [Ev.write _ _ ok1, Ev.write _ _ ok2] => ok1 = false ∧ o.res = Res.ok ok2
  | _ => False

/-- A write event of frame `f` in a trace with no `f`-command-writes is
impossible. -/
theorem not_write_mem_of_nowrite (f : List Int) (c : Conn) (ok : Bool) (tr : List Ev)
    (h : cmdWrites f tr = []) : Ev.write f c ok ∉ tr := by
  intro hm
  have hmem : Ev.write f c ok ∈ cmdWrites f tr :=
    List.mem_filter.mpr ⟨hm, by simp [isCmdWrite]⟩
  simp [h] at hmem

/-- Every write event of `ensure_paired` is a pairing frame (command byte
`CMD_PAIR`). -/
theorem ep_write_mem (s : St) (e : Env) (f : List Int) (c : Conn) (ok : Bool)
    (hm : Ev.write f c ok ∈ (Lamp.ensure_paired s e).tr) : f.getD 1 0 = CMD_PAIR := by
  by_contra hb
  exact not_write_mem_of_nowrite f c ok _ ((ep_char s e).2.2.1 f hb) hm

theorem connect_no_write_mem (s : St) (e : Env) (f : List Int) (c : Conn) (ok : Bool) :
    Ev.write f c ok ∉ (Lamp.connect s e).tr :=
  not_write_mem_of_nowrite f c ok _ (connect_nowrite f s e)

theorem disconnect_no_write_mem (s : St) (e : Env) (f : List Int) (c : Conn) (ok : Bool) :
    Ev.write f c ok ∉ (Lamp.disconnect s e).tr :=
  not_write_mem_of_nowrite f c ok _ (disconnect_nowrite f s e)

/-- Characterization of `send_cmd`: the result is always a Bool (never an
exception), the Device State fields are untouched, and the write attempts
follow `cmdTraceOK` and `sendShape`. -/
theorem send_cmd_char (bits : List Int) (w : Nat) (s : St) (e : Env)
    (hb : bits.getD 1 0 ≠ CMD_PAIR) :
    ((Lamp.send_cmd bits w s e).res = Res.ok true ∨
      (Lamp.send_cmd bits w s e).res = Res.ok false) ∧
    devFields (Lamp.send_cmd bits w s e).st = devFields s ∧
    cmdTraceOK bits (Lamp.send_cmd bits w s e).tr ∧
    sendShape bits (Lamp.send_cmd bits w s e) ∧
    (∀ f c2 ok2, Ev.write f c2 ok2 ∈ (Lamp.send_cmd bits w s e).tr →
      f = bits ∨ f.getD 1 0 = CMD_PAIR) := by
  obtain ⟨hepok, hepf, hepnw, -⟩ := ep_char s e
  have hepnwb := hepnw bits hb
  unfold Lamp.send_cmd
  simp only [M.tryCatch, Bind.bind, M.bind, M.get, M.pure]
  rcases hepres : (Lamp.ensure_paired s e).res with a | _
  · rcases a
    obtain ⟨hconn, hcls⟩ := hepok hepres
    simp only [hepres]
    rcases hcl : (Lamp.ensure_paired s e).st.client with _ | c
    · simp [hcl] at hcls
    · simp only [hcl, writeGatt, M.tryCatch, Bind.bind, M.bind, M.get, M.pure]
      by_cases hw1 : (Lamp.ensure_paired s e).env.writes.headD false = true
      · simp only [hw1, if_true, writeGatt, M.tryCatch, Bind.bind, M.bind, M.get, M.pure]
        refine ⟨Or.inl (by simp), by simp [hepf], ?_, ?_, ?_⟩
        · simp [cmdTraceOK, cmdWrites_append, hepnwb, cmdWrites_write_self, cmdWrites_nil,
            hconn]
        · simp [sendShape, cmdWrites_append, hepnwb, cmdWrites_write_self, cmdWrites_nil]
        · intro f c2 ok2 hm
          simp only [List.append_assoc, List.mem_append, List.mem_singleton,
            List.not_mem_nil, or_false, false_or] at hm
          rcases hm with hm | hm
          · exact Or.inr (ep_write_mem s e f c2 ok2 hm)
          · injection hm with h1 h2 h3
            exact Or.inl h1
      · simp only [hw1, if_false, Bool.false_eq_true, writeGatt, M.tryCatch, Bind.bind, M.bind, M.get, M.pure]
        rcases hdres : (Lamp.disconnect (Lamp.ensure_paired s e).st
            { (Lamp.ensure_paired s e).env with
                writes := (Lamp.ensure_paired s e).env.writes.tail }).res with b | _
        · rcases b
          simp only [hdres, writeGatt, M.tryCatch, Bind.bind, M.bind, M.get, M.pure]
          have hdconn := (disconnect_some (Lamp.ensure_paired s e).st
            { (Lamp.ensure_paired s e).env with
                writes := (Lamp.ensure_paired s e).env.writes.tail } c hcl).1
          rcases hcres : (Lamp.connect (Lamp.disconnect (Lamp.ensure_paired s e).st
              { (Lamp.ensure_paired s e).env with
                  writes := (Lamp.ensure_paired s e).env.writes.tail }).st
              (Lamp.disconnect (Lamp.ensure_paired s e).st
              { (Lamp.ensure_paired s e).env with
                  writes := (Lamp.ensure_paired s e).env.writes.tail }).env).res with b2 | _
          · rcases b2
            have hcconn := connect_from_disconnected _ _ hdconn hcres
            simp only [hcres, writeGatt, M.tryCatch, Bind.bind, M.bind, M.get, M.pure]
            by_cases hw2 : (Lamp.connect (Lamp.disconnect (Lamp.ensure_paired s e).st
                { (Lamp.ensure_paired s e).env with
                    writes := (Lamp.ensure_paired s e).env.writes.tail }).st
                (Lamp.disconnect (Lamp.ensure_paired s e).st
                { (Lamp.ensure_paired s e).env with
                    writes := (Lamp.ensure_paired s e).env.writes.tail }).env).env.writes.headD
                false = true
            · simp only [hw2, if_true, writeGatt, M.tryCatch, Bind.bind, M.bind, M.get, M.pure]
              refine ⟨Or.inl (by simp), ?_, ?_, ?_, ?_⟩
              · simp [devFields, connect_is_on, connect_rgb, connect_brightness,
                  connect_temperature, connect_mode, disconnect_is_on, disconnect_rgb,
                  disconnect_brightness, disconnect_temperature, disconnect_mode]
                have h5 := hepf
                simp [devFields] at h5
                simp [h5]
              · simp [cmdTraceOK, cmdWrites_append, hepnwb, cmdWrites_write_self,
                  cmdWrites_nil, disconnect_nowrite, connect_nowrite, hconn, hcconn]
              · simp [sendShape, cmdWrites_append, hepnwb, cmdWrites_write_self,
                  cmdWrites_nil, disconnect_nowrite, connect_nowrite]
              · intro f c2 ok2 hm
                simp only [List.append_assoc, List.mem_append, List.mem_singleton,
                  List.not_mem_nil, or_false, false_or] at hm
                rcases hm with hm | hm | hm | hm | hm
                · exact Or.inr (ep_write_mem s e f c2 ok2 hm)
                · injection hm with h1 h2 h3
                  exact Or.inl h1
                · exact absurd hm (disconnect_no_write_mem _ _ f c2 ok2)
                · exact absurd hm (connect_no_write_mem _ _ f c2 ok2)
                · injection hm with h1 h2 h3
                  exact Or.inl h1
            · simp only [hw2, if_false, Bool.false_eq_true, writeGatt, M.tryCatch, Bind.bind, M.bind, M.get, M.pure]
              refine ⟨Or.inr (by simp), ?_, ?_, ?_, ?_⟩
              · simp [devFields, connect_is_on, connect_rgb, connect_brightness,
                  connect_temperature, connect_mode, disconnect_is_on, disconnect_rgb,
                  disconnect_brightness, disconnect_temperature, disconnect_mode]
                have h5 := hepf
                simp [devFields] at h5
                simp [h5]
              · simp [cmdTraceOK, cmdWrites_append, hepnwb, cmdWrites_write_self,
                  cmdWrites_nil, disconnect_nowrite, connect_nowrite, hconn, hcconn]
              · simp [sendShape, cmdWrites_append, hepnwb, cmdWrites_write_self,
                  cmdWrites_nil, disconnect_nowrite, connect_nowrite]
              · intro f c2 ok2 hm
                simp only [List.append_assoc, List.mem_append, List.mem_singleton,
                  List.not_mem_nil, or_false, false_or] at hm
                rcases hm with hm | hm | hm | hm | hm
                · exact Or.inr (ep_write_mem s e f c2 ok2 hm)
                · injection hm with h1 h2 h3
                  exact Or.inl h1
                · exact absurd hm (disconnect_no_write_mem _ _ f c2 ok2)
                · exact absurd hm (connect_no_write_mem _ _ f c2 ok2)
                · injection hm with h1 h2 h3
                  exact Or.inl h1
          · simp only [hcres, writeGatt, M.tryCatch, Bind.bind, M.bind, M.get, M.pure]
            refine ⟨Or.inr (by simp), ?_, ?_, ?_, ?_⟩
            · simp [devFields, connect_is_on, connect_rgb, connect_brightness,
                connect_temperature, connect_mode, disconnect_is_on, disconnect_rgb,
                disconnect_brightness, disconnect_temperature, disconnect_mode]
              have h5 := hepf
              simp [devFields] at h5
              simp [h5]
            · simp [cmdTraceOK, cmdWrites_append, hepnwb, cmdWrites_write_self,
                cmdWrites_nil, disconnect_nowrite, connect_nowrite, hconn]
            · simp [sendShape, cmdWrites_append, hepnwb, cmdWrites_write_self,
                cmdWrites_nil, disconnect_nowrite, connect_nowrite]
            · intro f c2 ok2 hm
              simp only [List.append_assoc, List.mem_append, List.mem_singleton,
                List.not_mem_nil, or_false, false_or] at hm
              rcases hm with hm | hm | hm | hm
              · exact Or.inr (ep_write_mem s e f c2 ok2 hm)
              · injection hm with h1 h2 h3
                exact Or.inl h1
              · exact absurd hm (disconnect_no_write_mem _ _ f c2 ok2)
              · exact absurd hm (connect_no_write_mem _ _ f c2 ok2)
        · have := disconnect_res (Lamp.ensure_paired s e).st
            { (Lamp.ensure_paired s e).env with
                writes := (Lamp.ensure_paired s e).env.writes.tail }
          rw [hdres] at this
          exact absurd this (by simp)
  · simp only [hepres, M.tryCatch, Bind.bind, M.bind, M.get, M.pure]
    refine ⟨Or.inr (by simp), by simp [hepf], ?_, ?_, ?_⟩
    · simp [cmdTraceOK, cmdWrites_append, hepnwb, cmdWrites_nil]
    · simp [sendShape, cmdWrites_append, hepnwb, cmdWrites_nil]
    · intro f c2 ok2 hm
      simp only [List.append_assoc, List.mem_append, List.mem_singleton,
        List.not_mem_nil, or_false, false_or] at hm
      exact Or.inr (ep_write_mem s e f c2 ok2 hm)

/-! ### Concrete frames built by the high-level operations -/

def POWER_ON_BITS : List Int := [COMMAND_STX, CMD_POWER, CMD_POWER_ON] ++ List.replicate 15 0

def POWER_OFF_BITS : List Int := [COMMAND_STX, CMD_POWER, CMD_POWER_OFF] ++ List.replicate 15 0

def GETSTATE_BITS : List Int :=
  [COMMAND_STX, CMD_GETSTATE, CMD_GETSTATE_SEC] ++ List.replicate 15 0

/-- Frame of `set_brightness`: the brightness byte is the clamped input. -/
def brightnessBits (b : Int) : List Int :=
  [COMMAND_STX, CMD_BRIGHTNESS, min 100 (max 0 b)] ++ List.replicate 15 0

/-- Frame of `set_temperature`: big-endian clamped kelvin, then the raw
brightness byte. -/
def tempBits (kelvin b : Int) : List Int :=
  [COMMAND_STX, CMD_TEMP] ++ beShort (min 6500 (max 1700 kelvin)) ++ [b] ++
    List.replicate 13 0

/-- Frame of `set_color`: raw red/green/blue bytes, the constant 0x01 mode
marker, then the raw brightness byte. -/
def colorBits (red green blue b : Int) : List Int :=
  [COMMAND_STX, CMD_RGB, red, green, blue, 0x01, b] ++ List.replicate 11 0

theorem pack_power_on : packBBB15x COMMAND_STX CMD_POWER CMD_POWER_ON = some POWER_ON_BITS := by
  decide

theorem pack_power_off :
    packBBB15x COMMAND_STX CMD_POWER CMD_POWER_OFF = some POWER_OFF_BITS := by
  decide

theorem pack_getstate :
    packBBB15x COMMAND_STX CMD_GETSTATE CMD_GETSTATE_SEC = some GETSTATE_BITS := by
  decide

theorem pack_brightness (b : Int) :
    packBBB15x COMMAND_STX CMD_BRIGHTNESS (min 100 (max 0 b)) = some (brightnessBits b) := by
  have h1 : byteOK (min 100 (max 0 b)) = true := by
    simp only [byteOK, decide_eq_true_eq]
    omega
  simp [packBBB15x, h1, byteOK, brightnessBits, COMMAND_STX, CMD_BRIGHTNESS]

theorem pack_temp (kelvin b : Int) (hb0 : 0 ≤ b) (hb1 : b ≤ 255) :
    packBBhB13x COMMAND_STX CMD_TEMP (min 6500 (max 1700 kelvin)) b
      = some (tempBits kelvin b) := by
  have h1 : shortOK (min 6500 (max 1700 kelvin)) = true := by
    simp only [shortOK, decide_eq_true_eq]
    omega
  have h2 : byteOK b = true := by
    simp only [byteOK, decide_eq_true_eq]
    omega
  simp [packBBhB13x, h1, h2, byteOK, tempBits, COMMAND_STX, CMD_TEMP]
  omega

theorem pack_color (red green blue b : Int) (hr0 : 0 ≤ red) (hr1 : red ≤ 255)
    (hg0 : 0 ≤ green) (hg1 : green ≤ 255) (hu0 : 0 ≤ blue) (hu1 : blue ≤ 255)
    (hb0 : 0 ≤ b) (hb1 : b ≤ 255) :
    pack7B11x COMMAND_STX CMD_RGB red green blue 0x01 b
      = some (colorBits red green blue b) := by
  have hr : byteOK red = true := by simp only [byteOK, decide_eq_true_eq]; omega
  have hg : byteOK green = true := by simp only [byteOK, decide_eq_true_eq]; omega
  have hu : byteOK blue = true := by simp only [byteOK, decide_eq_true_eq]; omega
  have hbb : byteOK b = true := by simp only [byteOK, decide_eq_true_eq]; omega
  simp [pack7B11x, hr, hg, hu, hbb, byteOK, colorBits, COMMAND_STX, CMD_RGB]
  omega

/-- When any RGB component or the brightness byte is outside 0..255,
`struct.pack` raises. -/
theorem pack_color_fail (red green blue b : Int)
    (h : ¬ (0 ≤ red ∧ red ≤ 255 ∧ 0 ≤ green ∧ green ≤ 255 ∧ 0 ≤ blue ∧ blue ≤ 255 ∧
            0 ≤ b ∧ b ≤ 255)) :
    pack7B11x COMMAND_STX CMD_RGB red green blue 0x01 b = none := by
  simp only [pack7B11x, byteOK]
  have : ¬ (decide (0 ≤ red ∧ red ≤ 255) && decide (0 ≤ green ∧ green ≤ 255) &&
      decide (0 ≤ blue ∧ blue ≤ 255) && decide (0 ≤ b ∧ b ≤ 255)) = true := by
    simp only [Bool.and_eq_true, decide_eq_true_eq]
    tauto
  simp only [Bool.and_eq_true, decide_eq_true_eq] at this ⊢
  split_ifs with hsp
  · exact absurd (by tauto) this
  · rfl

theorem brightnessBits_byte (b : Int) :
    (brightnessBits b).getD 2 0 = min 100 (max 0 b) ∧
    (brightnessBits b).getD 1 0 = CMD_BRIGHTNESS ∧
    0 ≤ (brightnessBits b).getD 2 0 ∧ (brightnessBits b).getD 2 0 ≤ 100 := by
  refine ⟨by simp [brightnessBits], by simp [brightnessBits], ?_, ?_⟩ <;>
    simp [brightnessBits] <;> omega

theorem tempBits_bytes (kelvin b : Int) :
    (tempBits kelvin b).getD 2 0 * 256 + (tempBits kelvin b).getD 3 0
      = min 6500 (max 1700 kelvin) ∧
    (tempBits kelvin b).getD 4 0 = b ∧
    (tempBits kelvin b).getD 1 0 = CMD_TEMP := by
  refine ⟨?_, by simp [tempBits, beShort], by simp [tempBits, beShort]⟩
  simp [tempBits, beShort]
  omega

theorem colorBits_bytes (red green blue b : Int) :
    (colorBits red green blue b).getD 2 0 = red ∧
    (colorBits red green blue b).getD 3 0 = green ∧
    (colorBits red green blue b).getD 4 0 = blue ∧
    (colorBits red green blue b).getD 6 0 = b ∧
    (colorBits red green blue b).getD 1 0 = CMD_RGB := by
  refine ⟨?_, ?_, ?_, ?_, ?_⟩ <;> simp [colorBits]

/-- Common tail of the high-level operations (a proof-structuring helper):
dispatch the frame, and on success apply the optimistic update and fire the
callbacks. -/
def opTail (bits : List Int) (w : Nat) (upd : St → St) : M Unit :=
  M.bind (Lamp.send_cmd bits w) (fun ok =>
    if ok then M.bind (M.modify upd) (fun _ => runStateChangedCb) else M.pure ())

theorem turn_on_eq (s : St) (e : Env) :
    Lamp.turn_on s e = opTail POWER_ON_BITS 200 (fun s2 => { s2 with is_on := true }) s e := by
  unfold Lamp.turn_on opTail
  simp only [pack_power_on, Bind.bind]

theorem turn_off_eq (s : St) (e : Env) :
    Lamp.turn_off s e = opTail POWER_OFF_BITS 200 (fun s2 => { s2 with is_on := false }) s e := by
  unfold Lamp.turn_off opTail
  simp only [pack_power_off, Bind.bind]

theorem set_brightness_eq (b : Int) (s : St) (e : Env) :
    Lamp.set_brightness b s e =
      opTail (brightnessBits b) 0
        (fun s2 => { s2 with brightness := min 100 (max 0 b) }) s e := by
  unfold Lamp.set_brightness opTail
  simp only [pack_brightness, Bind.bind]

theorem set_temperature_eq (kelvin : Int) (brightness : Option Int) (s : St) (e : Env)
    (hb0 : 0 ≤ brightness.getD s.brightness) (hb1 : brightness.getD s.brightness ≤ 255) :
    Lamp.set_temperature kelvin brightness s e =
      opTail (tempBits kelvin (brightness.getD s.brightness)) 0
        (fun s2 => { s2 with temperature := min 6500 (max 1700 kelvin),
                             brightness := brightness.getD s.brightness,
                             mode := some MODE_WHITE }) s e := by
  unfold Lamp.set_temperature opTail
  simp only [Bind.bind, M.bind, M.get, pack_temp _ _ hb0 hb1]
  rfl

theorem set_color_eq (red green blue : Int) (brightness : Option Int) (s : St) (e : Env)
    (hr0 : 0 ≤ red) (hr1 : red ≤ 255) (hg0 : 0 ≤ green) (hg1 : green ≤ 255)
    (hu0 : 0 ≤ blue) (hu1 : blue ≤ 255)
    (hb0 : 0 ≤ brightness.getD s.brightness) (hb1 : brightness.getD s.brightness ≤ 255) :
    Lamp.set_color red green blue brightness s e =
      opTail (colorBits red green blue (brightness.getD s.brightness)) 0
        (fun s2 => { s2 with rgb := (red, green, blue),
                             brightness := brightness.getD s.brightness,
                             mode := some MODE_COLOR }) s e := by
  unfold Lamp.set_color opTail
  simp only [Bind.bind, M.bind, M.get,
    pack_color _ _ _ _ hr0 hr1 hg0 hg1 hu0 hu1 hb0 hb1]
  rfl

/-- On dispatch failure the operation returns the dispatcher's output
unchanged: no optimistic update, no extra callback event. -/
theorem opTail_fail (bits : List Int) (w : Nat) (upd : St → St) (s : St) (e : Env)
    (h : (Lamp.send_cmd bits w s e).res = Res.ok false) :
    opTail bits w upd s e =
      ⟨(Lamp.send_cmd bits w s e).st, (Lamp.send_cmd bits w s e).env,
        (Lamp.send_cmd bits w s e).tr, Res.ok ()⟩ := by
  unfold opTail
  simp [M.bind, h, M.pure]

/-- Every write event of an operation comes from its `send_cmd` call. -/
theorem opTail_write_mem (bits : List Int) (w : Nat) (upd : St → St) (s : St) (e : Env)
    (f : List Int) (c : Conn) (ok : Bool)
    (hm : Ev.write f c ok ∈ (opTail bits w upd s e).tr) :
    Ev.write f c ok ∈ (Lamp.send_cmd bits w s e).tr := by
  unfold opTail at hm
  rcases hres : (Lamp.send_cmd bits w s e).res with a | _
  · rcases a
    · simp only [M.bind, hres, M.pure] at hm
      simpa [M.pure] using hm
    · simp only [M.bind, hres, M.modify, runStateChangedCb] at hm
      simpa [M.bind, M.modify, runStateChangedCb, M.pure] using hm
  · simp only [M.bind, hres] at hm
    exact hm

/-- Structure eta: updating `conn` with its own value is the identity. -/
theorem St_conn_eta (s : St) (c : Conn) (h : s.conn = c) : { s with conn := c } = s := by
  rw [← h]

/-- Early-return path of `connect`: a live connected client short-circuits,
only normalizing `DISCONNECTED`/`UNPAIRED` to `UNPAIRED`; no event, no new
session, no handle replacement, environment untouched. -/
theorem connect_early (s : St) (e : Env) (c : Client) (hc : s.client = some c)
    (hcc : c.connected = true) :
    Lamp.connect s e =
      ⟨{ s with conn := if s.conn = Conn.DISCONNECTED ∨ s.conn = Conn.UNPAIRED
                        then Conn.UNPAIRED else s.conn }, e, [], Res.ok ()⟩ := by
  unfold Lamp.connect
  simp only [Bind.bind, M.bind, M.get, hc, hcc]
  by_cases hcond : s.conn = Conn.DISCONNECTED ∨ s.conn = Conn.UNPAIRED
  · rw [if_pos hcond, if_pos hcond]
    simp [M.set]
  · rw [if_neg hcond, if_neg hcond]
    simp [M.pure, St_conn_eta s s.conn rfl]
    rw [← hc]

/-- A second `connect` directly after a successful one changes nothing. -/
theorem connect_idem (s : St) (e e' : Env) (h : (Lamp.connect s e).res = Res.ok ()) :
    Lamp.connect (Lamp.connect s e).st e' = ⟨(Lamp.connect s e).st, e', [], Res.ok ()⟩ := by
  obtain ⟨c, hc, hcc⟩ := connect_ok_client s e h
  have hconn := connect_ok_conn s e h
  rw [connect_early (Lamp.connect s e).st e' c hc hcc]
  rcases hconn with h1 | h1 | h1 <;>
    simp [h1, St_conn_eta (Lamp.connect s e).st _ h1]

/-- A length-18 pairing-result frame with the given status code. -/
def pairResFrame (code : Int) : List Int := [0, RES_PAIR, code] ++ List.replicate 15 0

/-- Decoding a pairing-result notification: code 0x01 moves to `PAIRING`,
0x02/0x04 to `PAIRED`, anything else (including the explicit reject 0x03) to
`UNPAIRED`; the response signal is always fulfilled and the state callbacks
are not fired by this branch. -/
theorem handler_pair_codes (s : St) (ch : Nat) (code : Int) :
    (Lamp.notification_handler s ch (pairResFrame code)).1.conn =
      (if code = 0x01 then Conn.PAIRING
       else if code = 0x02 ∨ code = 0x04 then Conn.PAIRED
       else Conn.UNPAIRED) ∧
    (Lamp.notification_handler s ch (pairResFrame code)).1.pairEvent = true := by
  unfold Lamp.notification_handler pairResFrame
  simp only [List.length_append, List.length_replicate, List.length_cons]
  norm_num
  simp only [List.getD, RES_PAIR, RES_GETSTATE]
  norm_num
  split_ifs <;> simp_all

/-- A notification whose length is not exactly 18 bytes is a complete no-op:
the unpack raises, the handler catches and returns, no field changes and no
callback fires. -/
theorem handler_malformed (s : St) (ch : Nat) (data : List Int) (h : data.length ≠ 18) :
    Lamp.notification_handler s ch data = (s, false) := by
  unfold Lamp.notification_handler
  simp [h]

/-- After decoding a state or pairing notification, the mode is `none`
whenever the resulting connection state is not `PAIRED`. -/
theorem handler_mode_unset (s : St) (ch : Nat) (data : List Int)
    (hlen : data.length = 18)
    (hres : data.getD 1 0 = RES_GETSTATE ∨ data.getD 1 0 = RES_PAIR)
    (hc : (Lamp.notification_handler s ch data).1.conn ≠ Conn.PAIRED) :
    (Lamp.notification_handler s ch data).1.mode = none := by
  unfold Lamp.notification_handler at *
  rcases hres with hr | hr
  · simp only [hlen, hr, RES_GETSTATE, RES_PAIR] at hc ⊢
    norm_num at hc ⊢
    split_ifs at hc ⊢ <;> simp_all
  · have hne : ¬ ((0x63 : Int) = RES_GETSTATE) := by decide
    simp only [hlen, hr, RES_GETSTATE, RES_PAIR] at hc ⊢
    norm_num at hc ⊢
    split_ifs at hc ⊢ <;> simp_all

/-- The transport disconnect callback always clears the mode. -/
theorem diconnected_cb_mode (s : St) :
    (Lamp.diconnected_cb s).mode = none ∧
    (Lamp.diconnected_cb s).conn = Conn.DISCONNECTED ∧
    (Lamp.diconnected_cb s).notifyStarted = false := by
  simp [Lamp.diconnected_cb]

/-- A non-Candela lamp is constructed with mode `Unset`. -/
theorem init_mode_non_candela (d : BLEDevice) (h : model_from_name d.name ≠ MODEL_CANDELA) :
    (Lamp.init d).mode = none := by
  simp [Lamp.init, h]

/-- `set_color` with any component or explicit brightness outside 0..255
raises `struct.error` before any write and before any state change. -/
theorem set_color_out_of_range (red green blue bb : Int) (s : St) (e : Env)
    (h : ¬ (0 ≤ red ∧ red ≤ 255 ∧ 0 ≤ green ∧ green ≤ 255 ∧ 0 ≤ blue ∧ blue ≤ 255 ∧
            0 ≤ bb ∧ bb ≤ 255)) :
    Lamp.set_color red green blue (some bb) s e = ⟨s, e, [], Res.exc⟩ := by
  have hp := pack_color_fail red green blue bb h
  unfold Lamp.set_color
  simp only [Bind.bind, M.bind, M.get, Option.getD_some, hp, M.raise]
  simp

/-- Any run of `send_cmd` leaves the state unchanged or with a client handle
present. -/
theorem send_cmd_st_cases (bits : List Int) (w : Nat) (s : St) (e : Env) :
    (Lamp.send_cmd bits w s e).st = s ∨
    (Lamp.send_cmd bits w s e).st.client.isSome = true := by
  obtain ⟨hepok, -, -, hepcases⟩ := ep_char s e
  unfold Lamp.send_cmd
  simp only [M.tryCatch, Bind.bind, M.bind, M.get, M.pure]
  rcases hepres : (Lamp.ensure_paired s e).res with a | _
  · rcases a
    obtain ⟨hconn, hcls⟩ := hepok hepres
    simp only [hepres]
    rcases hcl : (Lamp.ensure_paired s e).st.client with _ | c
    · simp [hcl] at hcls
    · simp only [hcl, writeGatt, M.tryCatch, Bind.bind, M.bind, M.get, M.pure]
      by_cases hw1 : (Lamp.ensure_paired s e).env.writes.headD false = true
      · simp only [hw1, if_true]
        exact Or.inr (by simp [hcl])
      · simp only [hw1, if_false, Bool.false_eq_true]
        rcases hdres : (Lamp.disconnect (Lamp.ensure_paired s e).st
            { (Lamp.ensure_paired s e).env with
                writes := (Lamp.ensure_paired s e).env.writes.tail }).res with b | _
        · rcases b
          simp only [hdres]
          have hdsome := (disconnect_some (Lamp.ensure_paired s e).st
            { (Lamp.ensure_paired s e).env with
                writes := (Lamp.ensure_paired s e).env.writes.tail } c hcl).2.2
          have hcsome := connect_isSome (Lamp.disconnect (Lamp.ensure_paired s e).st
              { (Lamp.ensure_paired s e).env with
                  writes := (Lamp.ensure_paired s e).env.writes.tail }).st (Lamp.disconnect (Lamp.ensure_paired s e).st
              { (Lamp.ensure_paired s e).env with
                  writes := (Lamp.ensure_paired s e).env.writes.tail }).env hdsome
          rcases hcres : (Lamp.connect (Lamp.disconnect (Lamp.ensure_paired s e).st
              { (Lamp.ensure_paired s e).env with
                  writes := (Lamp.ensure_paired s e).env.writes.tail }).st
              (Lamp.disconnect (Lamp.ensure_paired s e).st
              { (Lamp.ensure_paired s e).env with
                  writes := (Lamp.ensure_paired s e).env.writes.tail }).env).res with b2 | _
          · rcases b2
            simp only [hcres, writeGatt, M.tryCatch, Bind.bind, M.bind, M.get, M.pure]
            by_cases hw2 : (Lamp.connect (Lamp.disconnect (Lamp.ensure_paired s e).st
                { (Lamp.ensure_paired s e).env with
                    writes := (Lamp.ensure_paired s e).env.writes.tail }).st
                (Lamp.disconnect (Lamp.ensure_paired s e).st
                { (Lamp.ensure_paired s e).env with
                    writes := (Lamp.ensure_paired s e).env.writes.tail }).env).env.writes.headD
                false = true
            · simp only [hw2, if_true]
              exact Or.inr hcsome
            · simp only [hw2, if_false, Bool.false_eq_true]
              exact Or.inr hcsome
          · simp only [hcres]
            exact Or.inr hcsome
        · have := disconnect_res (Lamp.ensure_paired s e).st
            { (Lamp.ensure_paired s e).env with
                writes := (Lamp.ensure_paired s e).env.writes.tail }
          rw [hdres] at this
          exact absurd this (by simp)
  · simp only [hepres]
    exact hepcases

/-- The reachability invariant behind `disconnect`'s guarantees: a lamp that
never created a transport handle is still in its initial
disconnected/unsubscribed state. -/
def LampInv (s : St) : Prop :=
  s.client = none → s.conn = Conn.DISCONNECTED ∧ s.notifyStarted = false

theorem Inv_of_isSome (s : St) (h : s.client.isSome = true) : LampInv s := by
  intro hc
  simp [hc] at h

theorem send_cmd_inv (bits : List Int) (w : Nat) (s : St) (e : Env) (h : LampInv s) :
    LampInv (Lamp.send_cmd bits w s e).st := by
  rcases send_cmd_st_cases bits w s e with h1 | h1
  · rw [h1]; exact h
  · exact Inv_of_isSome _ h1

theorem opTail_inv (bits : List Int) (w : Nat) (upd : St → St) (s : St) (e : Env)
    (hu : ∀ s2, (upd s2).client = s2.client ∧ (upd s2).conn = s2.conn ∧
      (upd s2).notifyStarted = s2.notifyStarted)
    (h : LampInv s) : LampInv (opTail bits w upd s e).st := by
  have hsc := send_cmd_inv bits w s e h
  unfold opTail
  rcases hres : (Lamp.send_cmd bits w s e).res with a | _
  · rcases a
    · simp only [M.bind, hres, M.pure]
      simpa [M.pure] using hsc
    · intro hc
      obtain ⟨h1, h2, h3⟩ := hu (Lamp.send_cmd bits w s e).st
      simp only [M.bind, hres] at hc ⊢
      simp [M.bind, M.modify, runStateChangedCb] at hc ⊢
      rw [h1] at hc
      exact ⟨by rw [h2]; exact (hsc hc).1, by rw [h3]; exact (hsc hc).2⟩
  · simp only [M.bind, hres]
    exact hsc

theorem connect_inv (s : St) (e : Env) (h : LampInv s) : LampInv (Lamp.connect s e).st := by
  rcases connect_st_cases s e with h1 | h1
  · rw [h1]; exact h
  · exact Inv_of_isSome _ h1

theorem ep_inv (s : St) (e : Env) (h : LampInv s) : LampInv (Lamp.ensure_paired s e).st := by
  rcases (ep_char s e).2.2.2 with h1 | h1
  · rw [h1]; exact h
  · exact Inv_of_isSome _ h1

theorem pair_inv (s : St) (e : Env) (h : LampInv s) : LampInv (Lamp.pair s e).st := by
  intro hc
  rw [pair_client] at hc
  rw [pair_conn, pair_notifyStarted]
  exact h hc

theorem disconnect_inv (s : St) (e : Env) (h : LampInv s) : LampInv (Lamp.disconnect s e).st := by
  rcases hc : s.client with _ | c
  · rw [disconnect_none s e hc]
    exact h
  · exact Inv_of_isSome _ (disconnect_some s e c hc).2.2

theorem get_state_inv (s : St) (e : Env) (h : LampInv s) : LampInv (Lamp.get_state s e).st := by
  unfold Lamp.get_state
  simp only [pack_getstate, Bind.bind, M.bind]
  rcases hres : (Lamp.send_cmd GETSTATE_BITS 200 s e).res with a | _ <;>
    simpa [hres, M.pure] using send_cmd_inv GETSTATE_BITS 200 s e h

theorem turn_on_inv (s : St) (e : Env) (h : LampInv s) : LampInv (Lamp.turn_on s e).st := by
  rw [turn_on_eq]
  exact opTail_inv _ _ _ s e (fun s2 => ⟨rfl, rfl, rfl⟩) h

theorem turn_off_inv (s : St) (e : Env) (h : LampInv s) : LampInv (Lamp.turn_off s e).st := by
  rw [turn_off_eq]
  exact opTail_inv _ _ _ s e (fun s2 => ⟨rfl, rfl, rfl⟩) h

theorem set_brightness_inv (b : Int) (s : St) (e : Env) (h : LampInv s) :
    LampInv (Lamp.set_brightness b s e).st := by
  rw [set_brightness_eq]
  exact opTail_inv _ _ _ s e (fun s2 => ⟨rfl, rfl, rfl⟩) h

theorem set_temperature_inv (kelvin : Int) (brightness : Option Int) (s : St) (e : Env)
    (h : LampInv s) : LampInv (Lamp.set_temperature kelvin brightness s e).st := by
  unfold Lamp.set_temperature
  simp only [Bind.bind, M.bind, M.get]
  rcases hp : packBBhB13x COMMAND_STX CMD_TEMP (min 6500 (max 1700 kelvin))
      (brightness.getD s.brightness) with _ | bits
  · simpa [hp, M.raise] using h
  · simp only [hp]
    have := opTail_inv bits 0
      (fun s2 => { s2 with temperature := min 6500 (max 1700 kelvin),
                           brightness := brightness.getD s.brightness,
                           mode := some MODE_WHITE }) s e (fun s2 => ⟨rfl, rfl, rfl⟩) h
    unfold opTail at this
    simpa using this

theorem set_color_inv (red green blue : Int) (brightness : Option Int) (s : St) (e : Env)
    (h : LampInv s) : LampInv (Lamp.set_color red green blue brightness s e).st := by
  unfold Lamp.set_color
  simp only [Bind.bind, M.bind, M.get]
  rcases hp : pack7B11x COMMAND_STX CMD_RGB red green blue 0x01
      (brightness.getD s.brightness) with _ | bits
  · simpa [hp, M.raise] using h
  · simp only [hp]
    have := opTail_inv bits 0
      (fun s2 => { s2 with rgb := (red, green, blue),
                           brightness := brightness.getD s.brightness,
                           mode := some MODE_COLOR }) s e (fun s2 => ⟨rfl, rfl, rfl⟩) h
    unfold opTail at this
    simpa using this

theorem handler_client (s : St) (ch : Nat) (data : List Int) :
    (Lamp.notification_handler s ch data).1.client = s.client := by
  unfold Lamp.notification_handler
  dsimp only
  repeat' split
  all_goals rfl

theorem init_inv (d : BLEDevice) : LampInv (Lamp.init d) := by
  intro hc
  simp [Lamp.init]

/-- The reachable states of a `Lamp` instance: its initial state, closed
under every public method body and under the transport-driven callbacks
(which the transport only invokes once a client handle exists). -/
inductive Reachable : St → Prop where
  | init (d : BLEDevice) : Reachable (Lamp.init d)
  | connect (s : St) (e : Env) : Reachable s → Reachable ((Lamp.connect s e).st)
  | ensure_paired (s : St) (e : Env) : Reachable s → Reachable ((Lamp.ensure_paired s e).st)
  | pair (s : St) (e : Env) : Reachable s → Reachable ((Lamp.pair s e).st)
  | disconnect (s : St) (e : Env) : Reachable s → Reachable ((Lamp.disconnect s e).st)
  | send_cmd (bits : List Int) (w : Nat) (s : St) (e : Env) :
      Reachable s → Reachable ((Lamp.send_cmd bits w s e).st)
  | get_state (s : St) (e : Env) : Reachable s → Reachable ((Lamp.get_state s e).st)
  | turn_on (s : St) (e : Env) : Reachable s → Reachable ((Lamp.turn_on s e).st)
  | turn_off (s : St) (e : Env) : Reachable s → Reachable ((Lamp.turn_off s e).st)
  | set_brightness (b : Int) (s : St) (e : Env) :
      Reachable s → Reachable ((Lamp.set_brightness b s e).st)
  | set_temperature (kelvin : Int) (brightness : Option Int) (s : St) (e : Env) :
      Reachable s → Reachable ((Lamp.set_temperature kelvin brightness s e).st)
  | set_color (red green blue : Int) (brightness : Option Int) (s : St) (e : Env) :
      Reachable s → Reachable ((Lamp.set_color red green blue brightness s e).st)
  | notif (s : St) (ch : Nat) (data : List Int) : Reachable s → s.client.isSome = true →
      Reachable ((Lamp.notification_handler s ch data).1)
  | disc_cb (s : St) : Reachable s → s.client.isSome = true →
      Reachable (Lamp.diconnected_cb s)

theorem reachable_inv (s : St) (h : Reachable s) : LampInv s := by
  induction h with
  | init d => exact init_inv d
  | connect s e _ ih => exact connect_inv s e ih
  | ensure_paired s e _ ih => exact ep_inv s e ih
  | pair s e _ ih => exact pair_inv s e ih
  | disconnect s e _ ih => exact disconnect_inv s e ih
  | send_cmd bits w s e _ ih => exact send_cmd_inv bits w s e ih
  | get_state s e _ ih => exact get_state_inv s e ih
  | turn_on s e _ ih => exact turn_on_inv s e ih
  | turn_off s e _ ih => exact turn_off_inv s e ih
  | set_brightness b s e _ ih => exact set_brightness_inv b s e ih
  | set_temperature kelvin brightness s e _ ih =>
      exact set_temperature_inv kelvin brightness s e ih
  | set_color red green blue brightness s e _ ih =>
      exact set_color_inv red green blue brightness s e ih
  | notif s ch data _ hsome _ =>
      exact Inv_of_isSome _ (by rw [handler_client]; exact hsome)
  | disc_cb s _ hsome _ =>
      intro hc
      exact ⟨rfl, rfl⟩

theorem brightnessBits_not_pair (b : Int) : (brightnessBits b).getD 1 0 ≠ CMD_PAIR := by
  rw [(brightnessBits_byte b).2.1]
  decide

theorem tempBits_not_pair (kelvin b : Int) : (tempBits kelvin b).getD 1 0 ≠ CMD_PAIR := by
  rw [(tempBits_bytes kelvin b).2.2]
  decide

theorem colorBits_not_pair (red green blue b : Int) :
    (colorBits red green blue b).getD 1 0 ≠ CMD_PAIR := by
  rw [(colorBits_bytes red green blue b).2.2.2.2]
  decide

/-! ### Concrete states and environments for witnesses and counterexamples -/

/-- A discovered Candela device (name prefix `yeelight_ms`). -/
def candelaDevice : BLEDevice := ⟨"F8:24:41:C6:00:01", some NAME_PREFIX_CANDELA⟩

/-- A device of unknown model. -/
def unknownDevice : BLEDevice := ⟨"AA:BB:CC:DD:EE:FF", some MODEL_UNKNOWN⟩

/-- A paired session with live client and notifications running. -/
def sPaired : St :=
  { client := some ⟨0, true⟩
    conn := Conn.PAIRED
    is_on := false
    rgb := (0, 0, 0)
    brightness := 10
    temperature := 0
    mode := none
    model := MODEL_CANDELA
    pairEvent := false
    readService := true
    notifyStarted := true
    epoch := 1 }

/-- A freshly constructed, never-connected state. -/
def sDisc : St :=
  { client := none
    conn := Conn.DISCONNECTED
    is_on := false
    rgb := (1, 2, 3)
    brightness := 10
    temperature := 2700
    mode := none
    model := MODEL_UNKNOWN
    pairEvent := false
    readService := false
    notifyStarted := false
    epoch := 0 }

/-- Transport behaves: connects, subscribes and writes all succeed. -/
def envAllOk : Env := ⟨[true], [true], [true, true], [true], false⟩

/-- First command write fails, the reconnect succeeds, the retry succeeds. -/
def envRetryOk : Env := ⟨[true], [], [false, true], [true], false⟩

/-- First command write fails and the reconnect fails too. -/
def envReconnFail : Env := ⟨[false], [], [false], [true], false⟩

/-- Every transport call fails. -/
def envConnFail : Env := ⟨[false], [], [], [], false⟩

/-! ### Claims -/

/-- Claim C1, counterexample: on the reconnect-and-retry path of `send_cmd`
the command frame is written to the control characteristic while Connection
State is `UNPAIRED`, not `PAIRED` — the retry path reconnects but never
re-runs `ensure_paired`.  Here the get-state frame (not the pairing frame)
is written with `Conn.UNPAIRED` recorded at the moment of the write. -/
theorem C1_counterexample :
    GETSTATE_BITS.getD 1 0 ≠ CMD_PAIR ∧
    Ev.write GETSTATE_BITS Conn.UNPAIRED true
      ∈ (Lamp.send_cmd GETSTATE_BITS 0 sPaired envRetryOk).tr := by
  decide

/-- Claim C1, amended: in every run of `send_cmd` with a non-pairing frame,
the first write attempt happens with Connection State `PAIRED` (after
`ensure_paired` completed or force-assumed pairing), and the retried write
after the internal disconnect-reconnect happens with Connection State
`UNPAIRED`; there are never more than these two attempts. -/
theorem C1_theorem (bits : List Int) (w : Nat) (s : St) (e : Env)
    (hb : bits.getD 1 0 ≠ CMD_PAIR) :
    cmdTraceOK bits (Lamp.send_cmd bits w s e).tr :=
  (send_cmd_char bits w s e hb).2.2.1

/-- Claim C1, witness: a concrete successful dispatch satisfies the amended
trace property. -/
theorem C1_witness :
    GETSTATE_BITS.getD 1 0 ≠ CMD_PAIR ∧
    cmdTraceOK GETSTATE_BITS (Lamp.send_cmd GETSTATE_BITS 0 sPaired envAllOk).tr :=
  ⟨by decide, C1_theorem GETSTATE_BITS 0 sPaired envAllOk (by decide)⟩

/-- Claim C2, counterexample: `set_temperature 2000 (brightness := 150)`
transmits brightness byte 150 on the wire, not the clamp `min 100 (max 0
150) = 100`: the brightness argument of `set_temperature` is not clamped. -/
theorem C2_counterexample :
    Ev.write (tempBits 2000 150) Conn.PAIRED true
      ∈ (Lamp.set_temperature 2000 (some 150) sPaired envAllOk).tr ∧
    (tempBits 2000 150).getD 4 0 = 150 ∧
    min 100 (max 0 (150 : Int)) = 100 := by
  decide

/-- Claim C2, amended: the brightness byte transmitted by `set_brightness`
is the input clamped to [0,100], and the Kelvin value transmitted by
`set_temperature` is the input clamped to [1700,6500]; but the brightness
argument of `set_temperature` and `set_color` (and the RGB components of
`set_color`) are transmitted exactly as given, unclamped (values outside
0..255 raise a pack error instead). -/
theorem C2_theorem :
    (∀ (b : Int) (s : St) (e : Env) (f : List Int) (c : Conn) (ok : Bool),
        Ev.write f c ok ∈ (Lamp.set_brightness b s e).tr → f.getD 1 0 ≠ CMD_PAIR →
        f.getD 2 0 = min 100 (max 0 b) ∧ 0 ≤ f.getD 2 0 ∧ f.getD 2 0 ≤ 100) ∧
    (∀ (kelvin : Int) (brightness : Option Int) (s : St) (e : Env) (f : List Int)
        (c : Conn) (ok : Bool),
        0 ≤ brightness.getD s.brightness → brightness.getD s.brightness ≤ 255 →
        Ev.write f c ok ∈ (Lamp.set_temperature kelvin brightness s e).tr →
        f.getD 1 0 ≠ CMD_PAIR →
        f.getD 2 0 * 256 + f.getD 3 0 = min 6500 (max 1700 kelvin) ∧
        1700 ≤ f.getD 2 0 * 256 + f.getD 3 0 ∧ f.getD 2 0 * 256 + f.getD 3 0 ≤ 6500 ∧
        f.getD 4 0 = brightness.getD s.brightness) ∧
    (∀ (red green blue : Int) (brightness : Option Int) (s : St) (e : Env) (f : List Int)
        (c : Conn) (ok : Bool),
        0 ≤ red → red ≤ 255 → 0 ≤ green → green ≤ 255 → 0 ≤ blue → blue ≤ 255 →
        0 ≤ brightness.getD s.brightness → brightness.getD s.brightness ≤ 255 →
        Ev.write f c ok ∈ (Lamp.set_color red green blue brightness s e).tr →
        f.getD 1 0 ≠ CMD_PAIR →
        f.getD 2 0 = red ∧ f.getD 3 0 = green ∧ f.getD 4 0 = blue ∧
        f.getD 6 0 = brightness.getD s.brightness) := by
  refine ⟨?_, ?_, ?_⟩
  · intro b s e f c ok hm hnp
    rw [set_brightness_eq b s e] at hm
    have hmem := opTail_write_mem _ _ _ s e f c ok hm
    rcases (send_cmd_char _ 0 s e (brightnessBits_not_pair b)).2.2.2.2 f c ok hmem with hf | hf
    · subst hf
      obtain ⟨t1, -, t3, t4⟩ := brightnessBits_byte b
      exact ⟨t1, t3, t4⟩
    · exact absurd hf hnp
  · intro kelvin brightness s e f c ok hb0 hb1 hm hnp
    rw [set_temperature_eq kelvin brightness s e hb0 hb1] at hm
    have hmem := opTail_write_mem _ _ _ s e f c ok hm
    rcases (send_cmd_char _ 0 s e
      (tempBits_not_pair kelvin (brightness.getD s.brightness))).2.2.2.2 f c ok hmem with hf | hf
    · subst hf
      obtain ⟨t1, t2, -⟩ := tempBits_bytes kelvin (brightness.getD s.brightness)
      refine ⟨t1, ?_, ?_, t2⟩ <;> rw [t1] <;> omega
    · exact absurd hf hnp
  · intro red green blue brightness s e f c ok hr0 hr1 hg0 hg1 hu0 hu1 hb0 hb1 hm hnp
    rw [set_color_eq red green blue brightness s e hr0 hr1 hg0 hg1 hu0 hu1 hb0 hb1] at hm
    have hmem := opTail_write_mem _ _ _ s e f c ok hm
    rcases (send_cmd_char _ 0 s e
      (colorBits_not_pair red green blue (brightness.getD s.brightness))).2.2.2.2
      f c ok hmem with hf | hf
    · subst hf
      obtain ⟨t1, t2, t3, t4, -⟩ := colorBits_bytes red green blue (brightness.getD s.brightness)
      exact ⟨t1, t2, t3, t4⟩
    · exact absurd hf hnp

/-- Claim C2, witness: a concrete `set_brightness 150` run transmits the
clamped byte 100. -/
theorem C2_witness :
    Ev.write (brightnessBits 150) Conn.PAIRED true
      ∈ (Lamp.set_brightness 150 sPaired envAllOk).tr ∧
    (brightnessBits 150).getD 1 0 ≠ CMD_PAIR ∧
    (brightnessBits 150).getD 2 0 = min 100 (max 0 (150 : Int)) := by
  refine ⟨by decide, by decide, ?_⟩
  exact (C2_theorem.1 150 sPaired envAllOk (brightnessBits 150) Conn.PAIRED true
    (by decide) (by decide)).1

/-- Claim C3, counterexample: a Candela lamp is constructed with the active
mode set to White while Connection State is `DISCONNECTED`, so the mode is
not Unset in a reachable state (construction) with Connection State ≠
Paired. -/
theorem C3_counterexample :
    (Lamp.init candelaDevice).conn ≠ Conn.PAIRED ∧
    (Lamp.init candelaDevice).mode ≠ none := by
  decide

/-- Claim C3, amended: after any decoded state or pairing notification the
mode is Unset whenever the resulting Connection State is not `PAIRED`, and
the transport disconnect callback always clears the mode; but at
construction a Candela starts with mode White while Disconnected (only
non-Candela lamps start with mode Unset), and the `disconnect()` method
itself leaves the mode field untouched. -/
theorem C3_theorem :
    (∀ (s : St) (ch : Nat) (data : List Int), data.length = 18 →
        (data.getD 1 0 = RES_GETSTATE ∨ data.getD 1 0 = RES_PAIR) →
        (Lamp.notification_handler s ch data).1.conn ≠ Conn.PAIRED →
        (Lamp.notification_handler s ch data).1.mode = none) ∧
    (∀ s : St, (Lamp.diconnected_cb s).mode = none) ∧
    (∀ d : BLEDevice, model_from_name d.name ≠ MODEL_CANDELA → (Lamp.init d).mode = none) :=
  ⟨handler_mode_unset, fun s => (diconnected_cb_mode s).1, init_mode_non_candela⟩

/-- Claim C3, witness: a rejected-pairing notification leaves the mode
Unset, and so does the disconnect callback. -/
theorem C3_witness :
    (Lamp.notification_handler sPaired 21 (pairResFrame 3)).1.mode = none ∧
    (Lamp.diconnected_cb sPaired).mode = none :=
  ⟨C3_theorem.1 sPaired 21 (pairResFrame 3) (by decide) (by decide) (by decide),
   C3_theorem.2.1 sPaired⟩

/-- Claim C4, counterexample: when the first write fails and the reconnect
also fails, `send_cmd` performs zero retried writes (the trace holds exactly
one failed command-frame attempt), refuting "retries the write exactly once
more (never zero times)"; it still returns `False` without raising. -/
theorem C4_counterexample :
    (Lamp.send_cmd GETSTATE_BITS 0 sPaired envReconnFail).res = Res.ok false ∧
    cmdWrites GETSTATE_BITS (Lamp.send_cmd GETSTATE_BITS 0 sPaired envReconnFail).tr
      = [Ev.write GETSTATE_BITS Conn.PAIRED false] := by
  decide

/-- Claim C4, amended: `send_cmd` never propagates an exception (the result
is always a boolean); on a first-write failure it disconnects and
reconnects, retrying at most once — exactly once when the reconnect
succeeds, zero times when it fails; a retry exists only after a failed
first attempt, and a failed retry (or failed reconnect) yields `False`. -/
theorem C4_theorem (bits : List Int) (w : Nat) (s : St) (e : Env)
    (hb : bits.getD 1 0 ≠ CMD_PAIR) :
    ((Lamp.send_cmd bits w s e).res = Res.ok true ∨
      (Lamp.send_cmd bits w s e).res = Res.ok false) ∧
    sendShape bits (Lamp.send_cmd bits w s e) :=
  ⟨(send_cmd_char bits w s e hb).1, (send_cmd_char bits w s e hb).2.2.2.1⟩

/-- Claim C4, witness: the write-fails-then-reconnect-and-retry run
satisfies the amended shape. -/
theorem C4_witness :
    GETSTATE_BITS.getD 1 0 ≠ CMD_PAIR ∧
    (((Lamp.send_cmd GETSTATE_BITS 0 sPaired envRetryOk).res = Res.ok true ∨
      (Lamp.send_cmd GETSTATE_BITS 0 sPaired envRetryOk).res = Res.ok false) ∧
     sendShape GETSTATE_BITS (Lamp.send_cmd GETSTATE_BITS 0 sPaired envRetryOk)) :=
  ⟨by decide, C4_theorem GETSTATE_BITS 0 sPaired envRetryOk (by decide)⟩

/-- Claim C5: a notification payload whose length is not the expected 18
bytes is discarded silently — the handler returns (it catches the unpack
error by construction), every Device State field and the Connection State
are unchanged, and no state-changed callback fires. -/
theorem C5_theorem (s : St) (ch : Nat) (data : List Int) (h : data.length ≠ 18) :
    Lamp.notification_handler s ch data = (s, false) :=
  handler_malformed s ch data h

/-- Claim C5, witness: the empty payload is a no-op. -/
theorem C5_witness :
    ([] : List Int).length ≠ 18 ∧
    Lamp.notification_handler sPaired 21 [] = (sPaired, false) :=
  ⟨by decide, C5_theorem sPaired 21 [] (by decide)⟩

/-- Claim C6: for every well-formed pairing-result notification, code 0x01
sets Connection State to `PAIRING`, codes 0x02/0x04 set it to `PAIRED`,
code 0x03 and every other code set it to `UNPAIRED`; in all cases the
pairing-response signal is fulfilled. -/
theorem C6_theorem (s : St) (ch : Nat) (code : Int) :
    (Lamp.notification_handler s ch (pairResFrame code)).1.conn =
      (if code = 0x01 then Conn.PAIRING
       else if code = 0x02 ∨ code = 0x04 then Conn.PAIRED
       else Conn.UNPAIRED) ∧
    (Lamp.notification_handler s ch (pairResFrame code)).1.pairEvent = true :=
  handler_pair_codes s ch code

/-- Claim C7: `connect()` is idempotent — with a live connected client it
returns at once with no new session, no handle replacement and no events,
only normalizing `DISCONNECTED`/`UNPAIRED` to `UNPAIRED`, and a second call
directly after a successful one changes no state. -/
theorem C7_theorem (s : St) (e : Env) :
    (∀ c, s.client = some c → c.connected = true →
      Lamp.connect s e =
        ⟨{ s with conn := if s.conn = Conn.DISCONNECTED ∨ s.conn = Conn.UNPAIRED
                          then Conn.UNPAIRED else s.conn }, e, [], Res.ok ()⟩) ∧
    (∀ e', (Lamp.connect s e).res = Res.ok () →
      Lamp.connect (Lamp.connect s e).st e' = ⟨(Lamp.connect s e).st, e', [], Res.ok ()⟩) :=
  ⟨fun c hc hcc => connect_early s e c hc hcc, fun e' h => connect_idem s e e' h⟩

/-- Claim C7, witness: connecting a live paired session is a no-op, and so
is a second connect after a successful one. -/
theorem C7_witness :
    Lamp.connect sPaired envAllOk =
      ⟨{ sPaired with
          conn := if sPaired.conn = Conn.DISCONNECTED ∨ sPaired.conn = Conn.UNPAIRED
                  then Conn.UNPAIRED else sPaired.conn }, envAllOk, [], Res.ok ()⟩ ∧
    Lamp.connect (Lamp.connect sPaired envAllOk).st envAllOk
      = ⟨(Lamp.connect sPaired envAllOk).st, envAllOk, [], Res.ok ()⟩ :=
  ⟨(C7_theorem sPaired envAllOk).1 ⟨0, true⟩ rfl rfl,
   (C7_theorem sPaired envAllOk).2 envAllOk (by decide)⟩

/-- Claim C8: when the `send_cmd` call of a high-level operation reports
failure, the operation returns the dispatcher's output unchanged — no
optimistic update is applied, no extra callback event is emitted, and every
Device State Model field (on/off, RGB, brightness, temperature, mode) keeps
its value from before the operation. -/
theorem C8_theorem (s : St) (e : Env) :
    ((Lamp.send_cmd POWER_ON_BITS 200 s e).res = Res.ok false →
      Lamp.turn_on s e = ⟨(Lamp.send_cmd POWER_ON_BITS 200 s e).st,
        (Lamp.send_cmd POWER_ON_BITS 200 s e).env,
        (Lamp.send_cmd POWER_ON_BITS 200 s e).tr, Res.ok ()⟩ ∧
      devFields (Lamp.turn_on s e).st = devFields s) ∧
    ((Lamp.send_cmd POWER_OFF_BITS 200 s e).res = Res.ok false →
      Lamp.turn_off s e = ⟨(Lamp.send_cmd POWER_OFF_BITS 200 s e).st,
        (Lamp.send_cmd POWER_OFF_BITS 200 s e).env,
        (Lamp.send_cmd POWER_OFF_BITS 200 s e).tr, Res.ok ()⟩ ∧
      devFields (Lamp.turn_off s e).st = devFields s) ∧
    (∀ b : Int, (Lamp.send_cmd (brightnessBits b) 0 s e).res = Res.ok false →
      Lamp.set_brightness b s e = ⟨(Lamp.send_cmd (brightnessBits b) 0 s e).st,
        (Lamp.send_cmd (brightnessBits b) 0 s e).env,
        (Lamp.send_cmd (brightnessBits b) 0 s e).tr, Res.ok ()⟩ ∧
      devFields (Lamp.set_brightness b s e).st = devFields s) ∧
    (∀ (kelvin : Int) (brightness : Option Int),
      0 ≤ brightness.getD s.brightness → brightness.getD s.brightness ≤ 255 →
      (Lamp.send_cmd (tempBits kelvin (brightness.getD s.brightness)) 0 s e).res
        = Res.ok false →
      Lamp.set_temperature kelvin brightness s e =
        ⟨(Lamp.send_cmd (tempBits kelvin (brightness.getD s.brightness)) 0 s e).st,
         (Lamp.send_cmd (tempBits kelvin (brightness.getD s.brightness)) 0 s e).env,
         (Lamp.send_cmd (tempBits kelvin (brightness.getD s.brightness)) 0 s e).tr,
         Res.ok ()⟩ ∧
      devFields (Lamp.set_temperature kelvin brightness s e).st = devFields s) ∧
    (∀ (red green blue : Int) (brightness : Option Int),
      0 ≤ red → red ≤ 255 → 0 ≤ green → green ≤ 255 → 0 ≤ blue → blue ≤ 255 →
      0 ≤ brightness.getD s.brightness → brightness.getD s.brightness ≤ 255 →
      (Lamp.send_cmd (colorBits red green blue (brightness.getD s.brightness)) 0 s e).res
        = Res.ok false →
      Lamp.set_color red green blue brightness s e =
        ⟨(Lamp.send_cmd (colorBits red green blue (brightness.getD s.brightness)) 0 s e).st,
         (Lamp.send_cmd (colorBits red green blue (brightness.getD s.brightness)) 0 s e).env,
         (Lamp.send_cmd (colorBits red green blue (brightness.getD s.brightness)) 0 s e).tr,
         Res.ok ()⟩ ∧
      devFields (Lamp.set_color red green blue brightness s e).st = devFields s) := by
  refine ⟨?_, ?_, ?_, ?_, ?_⟩
  · intro h
    rw [turn_on_eq s e, opTail_fail POWER_ON_BITS 200 _ s e h]
    exact ⟨rfl, (send_cmd_char POWER_ON_BITS 200 s e (by decide)).2.1⟩
  · intro h
    rw [turn_off_eq s e, opTail_fail POWER_OFF_BITS 200 _ s e h]
    exact ⟨rfl, (send_cmd_char POWER_OFF_BITS 200 s e (by decide)).2.1⟩
  · intro b h
    rw [set_brightness_eq b s e, opTail_fail (brightnessBits b) 0 _ s e h]
    exact ⟨rfl, (send_cmd_char (brightnessBits b) 0 s e (brightnessBits_not_pair b)).2.1⟩
  · intro kelvin brightness hb0 hb1 h
    rw [set_temperature_eq kelvin brightness s e hb0 hb1,
      opTail_fail (tempBits kelvin (brightness.getD s.brightness)) 0 _ s e h]
    exact ⟨rfl, (send_cmd_char (tempBits kelvin (brightness.getD s.brightness)) 0 s e
      (tempBits_not_pair kelvin (brightness.getD s.brightness))).2.1⟩
  · intro red green blue brightness hr0 hr1 hg0 hg1 hu0 hu1 hb0 hb1 h
    rw [set_color_eq red green blue brightness s e hr0 hr1 hg0 hg1 hu0 hu1 hb0 hb1,
      opTail_fail (colorBits red green blue (brightness.getD s.brightness)) 0 _ s e h]
    exact ⟨rfl, (send_cmd_char (colorBits red green blue (brightness.getD s.brightness)) 0 s e
      (colorBits_not_pair red green blue (brightness.getD s.brightness))).2.1⟩

/-- Claim C8, witness: a `turn_on` whose dispatch fails (the transport never
connects) leaves every Device State field untouched. -/
theorem C8_witness :
    (Lamp.send_cmd POWER_ON_BITS 200 sDisc envConnFail).res = Res.ok false ∧
    devFields (Lamp.turn_on sDisc envConnFail).st = devFields sDisc := by
  have h : (Lamp.send_cmd POWER_ON_BITS 200 sDisc envConnFail).res = Res.ok false := by
    decide
  exact ⟨h, ((C8_theorem sDisc envConnFail).1 h).2⟩

/-- Claim C9: for every reachable state, `disconnect()` never propagates an
exception, and afterwards Connection State is `DISCONNECTED` and the
notification-subscribed flag is false — including when no transport handle
was ever created (by the reachability invariant, such a lamp is still in
its initial disconnected, unsubscribed state). -/
theorem C9_theorem (s : St) (e : Env) (hs : Reachable s) :
    (Lamp.disconnect s e).res = Res.ok () ∧
    (Lamp.disconnect s e).st.conn = Conn.DISCONNECTED ∧
    (Lamp.disconnect s e).st.notifyStarted = false := by
  refine ⟨disconnect_res s e, ?_⟩
  rcases hc : s.client with _ | c
  · have hi := reachable_inv s hs hc
    rw [disconnect_none s e hc]
    exact hi
  · exact ⟨(disconnect_some s e c hc).1, (disconnect_some s e c hc).2.1⟩

/-- Claim C9, witness: disconnecting a freshly constructed lamp (no client
handle ever created) succeeds and lands in the disconnected state. -/
theorem C9_witness :
    (Lamp.disconnect (Lamp.init unknownDevice) envAllOk).res = Res.ok () ∧
    (Lamp.disconnect (Lamp.init unknownDevice) envAllOk).st.conn = Conn.DISCONNECTED ∧
    (Lamp.disconnect (Lamp.init unknownDevice) envAllOk).st.notifyStarted = false :=
  C9_theorem (Lamp.init unknownDevice) envAllOk (Reachable.init unknownDevice)

/-- Claim C10: `set_color` with any RGB component or explicit brightness
outside 0..255 propagates the `struct.pack` error to the caller before any
write is attempted and before any Device State field changes (the output is
exactly the input state with an empty trace and an exception), while
`get_prop_min_max` still advertises a 0..255 color range. -/
theorem C10_theorem (red green blue bb : Int) (s : St) (e : Env)
    (h : ¬ (0 ≤ red ∧ red ≤ 255 ∧ 0 ≤ green ∧ green ≤ 255 ∧ 0 ≤ blue ∧ blue ≤ 255 ∧
            0 ≤ bb ∧ bb ≤ 255)) :
    Lamp.set_color red green blue (some bb) s e = ⟨s, e, [], Res.exc⟩ ∧
    Lamp.get_prop_min_max.color = ⟨0, 255⟩ :=
  ⟨set_color_out_of_range red green blue bb s e h, rfl⟩

/-- Claim C10, witness: `set_color 300 0 0` raises with no write and no
state change. -/
theorem C10_witness :
    Lamp.set_color 300 0 0 (some 50) sPaired envAllOk = ⟨sPaired, envAllOk, [], Res.exc⟩ ∧
    Lamp.get_prop_min_max.color = ⟨0, 255⟩ :=
  C10_theorem 300 0 0 50 sPaired envAllOk (by decide)
